import Mathlib

/-!
Verification development for the ABAP ADT client (`AdtService.ts`,
`PackageHierarchyProvider.ts`).  The TypeScript code is shallowly embedded:
the mutable service object becomes an explicit `AdtState`, the HTTP transport
becomes a deterministic function from requests to responses, and the XML
layer is modelled at the level of the already-parsed attribute records that
`xml2js` hands to the code.  JavaScript-specific behaviour (string
truthiness, `||` defaults, `parseInt`, base64, template-literal
interpolation of `undefined`) is embedded explicitly.
-/

set_option maxRecDepth 40000

namespace Adt

theorem ne_of_beq_false {b : Bool} (h : b = false) : ¬ b = true := by
  rw [h]; exact Bool.false_ne_true

/-! ## Small string-scanning toolkit

Used to read the preselection/facet-order structure back out of the XML
request bodies that `getVirtualFolderContents` builds, so that the bodies
can be compared with the specification's per-facet-kind table. -/

/-- Longest prefix of the input that stops right before the first occurrence
of `sep` (the whole list when `sep` does not occur). -/
def takeUntil (sep : List Char) : List Char → List Char
  | [] => []
  | c :: cs => if sep.isPrefixOf (c :: cs) then [] else c :: takeUntil sep cs

/-- Suffix of the input that starts right after the first occurrence of
`sep`; `none` when `sep` does not occur (the empty separator is treated as
never occurring; it is never used below). -/
def dropThrough (sep : List Char) : List Char → Option (List Char)
  | [] => none
  | c :: cs =>
    if sep.isPrefixOf (c :: cs) then some ((c :: cs).drop sep.length)
    else dropThrough sep cs

/-- No nonempty suffix of `a` is a prefix of `sep`: appending anything to
`a` cannot create an occurrence of `sep` that straddles the boundary. -/
def cleanBreak (sep a : List Char) : Bool :=
  a.tails.all fun t => t.isEmpty || !(t.isPrefixOf sep)

theorem isPrefixOf_length_le {sep l : List Char} (h : sep.isPrefixOf l = true) :
    sep.length ≤ l.length := by
  induction sep generalizing l with
  | nil => exact Nat.zero_le _
  | cons a as ih =>
    cases l with
    | nil => simp [List.isPrefixOf] at h
    | cons b bs =>
      rw [List.isPrefixOf, Bool.and_eq_true] at h
      have := ih h.2
      simp only [List.length_cons]
      omega

theorem isPrefixOf_append_right (sep l b : List Char)
    (h : sep.length ≤ l.length) :
    sep.isPrefixOf (l ++ b) = sep.isPrefixOf l := by
  induction sep generalizing l with
  | nil => simp [List.isPrefixOf]
  | cons a as ih =>
    cases l with
    | nil => simp at h
    | cons c cs =>
      rw [List.cons_append, List.isPrefixOf, List.isPrefixOf]
      have hlen : as.length ≤ cs.length := by
        simp only [List.length_cons] at h; omega
      congr 1
      exact ih cs hlen

theorem isPrefixOf_append_self (sep r : List Char) :
    sep.isPrefixOf (sep ++ r) = true := by
  induction sep with
  | nil => simp
  | cons a as ih =>
    rw [List.cons_append, List.isPrefixOf, Bool.and_eq_true]
    exact ⟨by simp, ih⟩

theorem isPrefixOf_short {l sep b : List Char}
    (h : sep.isPrefixOf (l ++ b) = true) (hlen : l.length < sep.length) :
    l.isPrefixOf sep = true := by
  induction l generalizing sep with
  | nil => simp
  | cons c cs ih =>
    cases sep with
    | nil => simp at hlen
    | cons a as =>
      rw [List.cons_append, List.isPrefixOf, Bool.and_eq_true] at h
      rw [List.isPrefixOf, Bool.and_eq_true]
      refine ⟨?_, ?_⟩
      · have : a = c := by
          have hb := h.1
          exact beq_iff_eq.mp hb
        rw [this]; simp
      · have hlt : cs.length < as.length := by
          simp only [List.length_cons] at hlen; omega
        exact ih h.2 hlt

theorem drop_append_of_le {n : Nat} {l b : List Char} (h : n ≤ l.length) :
    (l ++ b).drop n = l.drop n ++ b := by
  induction l generalizing n with
  | nil =>
    simp at h
    simp [h]
  | cons c cs ih =>
    cases n with
    | zero => simp
    | succ m =>
      rw [List.cons_append, List.drop_succ_cons, List.drop_succ_cons]
      exact ih (by simp only [List.length_cons] at h; omega)

theorem dropThrough_length_le {sep l r : List Char}
    (h : dropThrough sep l = some r) : sep.length ≤ l.length := by
  induction l with
  | nil => simp [dropThrough] at h
  | cons c cs ih =>
    cases hp : sep.isPrefixOf (c :: cs) with
    | true => exact isPrefixOf_length_le hp
    | false =>
      rw [dropThrough, if_neg (ne_of_beq_false hp)] at h
      exact Nat.le_trans (ih h) (by simp)

theorem dropThrough_length_lt {sep l r : List Char} (hne : sep ≠ [])
    (h : dropThrough sep l = some r) : r.length < l.length := by
  induction l with
  | nil => simp [dropThrough] at h
  | cons c cs ih =>
    cases hp : sep.isPrefixOf (c :: cs) with
    | true =>
      rw [dropThrough, if_pos hp] at h
      cases h
      have h1 : 1 ≤ sep.length := by
        cases sep with
        | nil => exact absurd rfl hne
        | cons _ _ => simp
      rw [List.length_drop]
      simp only [List.length_cons]
      omega
    | false =>
      rw [dropThrough, if_neg (ne_of_beq_false hp)] at h
      exact Nat.lt_trans (ih h) (by simp)

theorem dropThrough_append_found {sep a r : List Char} (b : List Char)
    (h : dropThrough sep a = some r) :
    dropThrough sep (a ++ b) = some (r ++ b) := by
  induction a with
  | nil => simp [dropThrough] at h
  | cons c cs ih =>
    cases hp : sep.isPrefixOf (c :: cs) with
    | true =>
      rw [dropThrough, if_pos hp] at h
      cases h
      have hle := isPrefixOf_length_le hp
      have heq : sep.isPrefixOf ((c :: cs) ++ b) = true := by
        rw [isPrefixOf_append_right sep (c :: cs) b hle]; exact hp
      rw [show (c :: cs) ++ b = c :: (cs ++ b) from rfl] at heq
      rw [List.cons_append, dropThrough, if_pos heq]
      rw [show c :: (cs ++ b) = (c :: cs) ++ b from rfl, drop_append_of_le hle]
    | false =>
      rw [dropThrough, if_neg (ne_of_beq_false hp)] at h
      have hle : sep.length ≤ (c :: cs).length :=
        Nat.le_trans (dropThrough_length_le h) (by simp)
      have heq : sep.isPrefixOf ((c :: cs) ++ b) = false := by
        rw [isPrefixOf_append_right sep (c :: cs) b hle]; exact hp
      rw [show (c :: cs) ++ b = c :: (cs ++ b) from rfl] at heq
      rw [List.cons_append, dropThrough, if_neg (ne_of_beq_false heq)]
      exact ih h

theorem cleanBreak_tail {sep : List Char} {c : Char} {cs : List Char}
    (h : cleanBreak sep (c :: cs) = true) : cleanBreak sep cs = true := by
  unfold cleanBreak at h ⊢
  rw [List.tails, List.all_cons, Bool.and_eq_true] at h
  exact h.2

theorem cleanBreak_self {sep a : List Char} (h : cleanBreak sep a = true)
    (hne : a ≠ []) : a.isPrefixOf sep = false := by
  unfold cleanBreak at h
  cases a with
  | nil => exact absurd rfl hne
  | cons c cs =>
    rw [List.tails, List.all_cons, Bool.and_eq_true] at h
    have h1 := h.1
    rw [Bool.or_eq_true] at h1
    cases h1 with
    | inl h1 => simp [List.isEmpty] at h1
    | inr h1 =>
      cases hh : (c :: cs).isPrefixOf sep with
      | true => rw [hh] at h1; simp at h1
      | false => rfl

theorem dropThrough_append_none {sep a : List Char} (b : List Char)
    (hc : cleanBreak sep a = true) (h : dropThrough sep a = none) :
    dropThrough sep (a ++ b) = dropThrough sep b := by
  induction a with
  | nil => simp
  | cons c cs ih =>
    have hp : sep.isPrefixOf (c :: cs) = false := by
      cases hpp : sep.isPrefixOf (c :: cs) with
      | true => rw [dropThrough, if_pos hpp] at h; cases h
      | false => rfl
    rw [dropThrough, if_neg (ne_of_beq_false hp)] at h
    have hnp : sep.isPrefixOf ((c :: cs) ++ b) = false := by
      by_cases hlen : sep.length ≤ (c :: cs).length
      · rw [isPrefixOf_append_right sep (c :: cs) b hlen]; exact hp
      · cases hcontra : sep.isPrefixOf ((c :: cs) ++ b) with
        | false => rfl
        | true =>
          have hshort := isPrefixOf_short hcontra (Nat.lt_of_not_le hlen)
          have hfalse := cleanBreak_self hc (by simp)
          rw [hshort] at hfalse
          cases hfalse
    rw [show (c :: cs) ++ b = c :: (cs ++ b) from rfl] at hnp
    rw [List.cons_append, dropThrough, if_neg (ne_of_beq_false hnp)]
    exact ih (cleanBreak_tail hc) h

theorem takeUntil_append_none {sep a : List Char} (b : List Char)
    (hc : cleanBreak sep a = true) (h : dropThrough sep a = none) :
    takeUntil sep (a ++ b) = a ++ takeUntil sep b := by
  induction a with
  | nil => simp
  | cons c cs ih =>
    have hp : sep.isPrefixOf (c :: cs) = false := by
      cases hpp : sep.isPrefixOf (c :: cs) with
      | true => rw [dropThrough, if_pos hpp] at h; cases h
      | false => rfl
    rw [dropThrough, if_neg (ne_of_beq_false hp)] at h
    have hnp : sep.isPrefixOf ((c :: cs) ++ b) = false := by
      by_cases hlen : sep.length ≤ (c :: cs).length
      · rw [isPrefixOf_append_right sep (c :: cs) b hlen]; exact hp
      · cases hcontra : sep.isPrefixOf ((c :: cs) ++ b) with
        | false => rfl
        | true =>
          have hshort := isPrefixOf_short hcontra (Nat.lt_of_not_le hlen)
          have hfalse := cleanBreak_self hc (by simp)
          rw [hshort] at hfalse
          cases hfalse
    rw [show (c :: cs) ++ b = c :: (cs ++ b) from rfl] at hnp
    rw [List.cons_append, takeUntil, if_neg (ne_of_beq_false hnp)]
    rw [ih (cleanBreak_tail hc) h]
    rfl

theorem takeUntil_append_found {sep a : List Char} (b : List Char)
    {r : List Char} (h : dropThrough sep a = some r) :
    takeUntil sep (a ++ b) = takeUntil sep a := by
  induction a with
  | nil => simp [dropThrough] at h
  | cons c cs ih =>
    cases hp : sep.isPrefixOf (c :: cs) with
    | true =>
      have hle := isPrefixOf_length_le hp
      have heq : sep.isPrefixOf ((c :: cs) ++ b) = true := by
        rw [isPrefixOf_append_right sep (c :: cs) b hle]; exact hp
      rw [show (c :: cs) ++ b = c :: (cs ++ b) from rfl] at heq
      rw [List.cons_append, takeUntil, if_pos heq, takeUntil, if_pos hp]
    | false =>
      rw [dropThrough, if_neg (ne_of_beq_false hp)] at h
      have hle : sep.length ≤ (c :: cs).length :=
        Nat.le_trans (dropThrough_length_le h) (by simp)
      have hnot : sep.isPrefixOf ((c :: cs) ++ b) = false := by
        rw [isPrefixOf_append_right sep (c :: cs) b hle]; exact hp
      rw [show (c :: cs) ++ b = c :: (cs ++ b) from rfl] at hnot
      rw [List.cons_append, takeUntil, if_neg (ne_of_beq_false hnot),
        takeUntil, if_neg (ne_of_beq_false hp), ih h]

theorem takeUntil_of_isPrefixOf {sep l : List Char}
    (h : sep.isPrefixOf l = true) (hne : sep ≠ []) : takeUntil sep l = [] := by
  cases l with
  | nil =>
    cases sep with
    | nil => exact absurd rfl hne
    | cons a as => simp [List.isPrefixOf] at h
  | cons c cs => rw [takeUntil, if_pos h]

/-- A list avoiding the head character of the separator cannot contain an
occurrence of the separator. -/
theorem dropThrough_none_of_head_notin {d : Char} {ds a : List Char}
    (h : d ∉ a) : dropThrough (d :: ds) a = none := by
  induction a with
  | nil => rfl
  | cons c cs ih =>
    have hne : (d == c) = false := by
      have hx : d ≠ c := fun he => h (he ▸ List.mem_cons_self _ _)
      exact beq_false_of_ne hx
    have hp : (d :: ds).isPrefixOf (c :: cs) = false := by
      rw [List.isPrefixOf, hne, Bool.false_and]
    rw [dropThrough, if_neg (ne_of_beq_false hp)]
    exact ih fun hm => h (List.mem_cons_of_mem _ hm)

theorem cleanBreak_of_head_notin {d : Char} {ds a : List Char}
    (h : d ∉ a) : cleanBreak (d :: ds) a = true := by
  induction a with
  | nil => rfl
  | cons c cs ih =>
    have hne : (c == d) = false := by
      have hx : c ≠ d := fun he => h (he ▸ List.mem_cons_self _ _)
      exact beq_false_of_ne hx
    have htail := ih (fun hm => h (List.mem_cons_of_mem _ hm))
    unfold cleanBreak at htail ⊢
    rw [List.tails, List.all_cons, Bool.and_eq_true]
    refine ⟨?_, htail⟩
    have hp : (c :: cs).isPrefixOf (d :: ds) = false := by
      rw [List.isPrefixOf, hne, Bool.false_and]
    rw [Bool.or_eq_true, hp]
    right
    rfl

theorem dropThrough_append_head_notin {d : Char} {ds a : List Char}
    (b : List Char) (h : d ∉ a) :
    dropThrough (d :: ds) (a ++ b) = dropThrough (d :: ds) b :=
  dropThrough_append_none b (cleanBreak_of_head_notin h)
    (dropThrough_none_of_head_notin h)

theorem takeUntil_append_head_notin {d : Char} {ds a : List Char}
    (b : List Char) (h : d ∉ a) :
    takeUntil (d :: ds) (a ++ b) = a ++ takeUntil (d :: ds) b :=
  takeUntil_append_none b (cleanBreak_of_head_notin h)
    (dropThrough_none_of_head_notin h)

theorem dropThrough_append_notin (sep a b : List Char) (d : Char)
    (hh : sep.head? = some d) (h : d ∉ a) :
    dropThrough sep (a ++ b) = dropThrough sep b := by
  cases sep with
  | nil => simp at hh
  | cons e es =>
    cases hh
    exact dropThrough_append_head_notin b h

theorem takeUntil_append_notin (sep a b : List Char) (d : Char)
    (hh : sep.head? = some d) (h : d ∉ a) :
    takeUntil sep (a ++ b) = a ++ takeUntil sep b := by
  cases sep with
  | nil => simp at hh
  | cons e es =>
    cases hh
    exact takeUntil_append_head_notin b h

theorem string_data_append (a b : String) : (a ++ b).data = a.data ++ b.data :=
  rfl

theorem string_mk_data (s : String) : String.mk s.data = s := rfl

theorem string_mk_append_left (C : List Char) (s t : String) (h : t.data = C) :
    String.mk (C ++ s.data) = t ++ s := by
  rw [show C ++ s.data = (t ++ s).data by rw [string_data_append, h]]

/-! ## JavaScript semantics helpers -/

/-- `x || d` on strings: the empty string is falsy. -/
def jsOrStr (x d : String) : String := if x = "" then d else x

/-- `x?.f || d` where the optional chain may be `undefined`. -/
def jsOrOpt (x : Option String) (d : String) : String :=
  match x with
  | none => d
  | some s => jsOrStr s d

/-- Truthiness of a `string | undefined` value. -/
def jsTruthyOpt (x : Option String) : Bool :=
  match x with
  | none => false
  | some s => s != ""

/-- `String.prototype.startsWith` (for exact character comparison). -/
def jsStartsWith (s pre : String) : Bool := pre.data.isPrefixOf s.data

/-- Template-literal interpolation of a `string | undefined` value:
`undefined` prints as `"undefined"`. -/
def jsInterp (x : Option String) : String :=
  match x with
  | none => "undefined"
  | some s => s

/-- JavaScript `parseInt(s, 10)`: skip leading whitespace, optional sign,
then the longest digit prefix; `none` models `NaN`. -/
def jsParseInt (s : String) : Option Int :=
  let t := s.data.dropWhile Char.isWhitespace
  let (sign, t) : Int × List Char :=
    match t with
    | '-' :: r => (-1, r)
    | '+' :: r => (1, r)
    | r => (1, r)
  let digits := t.takeWhile Char.isDigit
  if digits.isEmpty then none
  else some (sign * (digits.foldl (fun acc c => acc * 10 + (c.toNat - 48)) 0 : Nat))

/-- UTF-8 encoding of one code point (as byte values). -/
def utf8Bytes (c : Char) : List Nat :=
  let n := c.toNat
  if n < 0x80 then [n]
  else if n < 0x800 then [0xC0 + n / 64, 0x80 + n % 64]
  else if n < 0x10000 then
    [0xE0 + n / 4096, 0x80 + (n / 64) % 64, 0x80 + n % 64]
  else
    [0xF0 + n / 262144, 0x80 + (n / 4096) % 64, 0x80 + (n / 64) % 64,
      0x80 + n % 64]

def stringUtf8 (s : String) : List Nat := s.data.flatMap utf8Bytes

def base64Char (n : Nat) : Char :=
  ("ABCDEFGHIJKLMNOPQRSTUVWXYZabcdefghijklmnopqrstuvwxyz0123456789+/").data.getD
    n 'A'

def base64Chunks : List Nat → List Char
  | [] => []
  | [b0] => [base64Char (b0 / 4), base64Char (b0 % 4 * 16), '=', '=']
  | [b0, b1] =>
    [base64Char (b0 / 4), base64Char (b0 % 4 * 16 + b1 / 16),
      base64Char (b1 % 16 * 4), '=']
  | b0 :: b1 :: b2 :: rest =>
    base64Char (b0 / 4) :: base64Char (b0 % 4 * 16 + b1 / 16) ::
      base64Char (b1 % 16 * 4 + b2 / 64) :: base64Char (b2 % 64) ::
      base64Chunks rest

/-- `Buffer.from(s).toString("base64")`. -/
def base64Encode (s : String) : String := String.mk (base64Chunks (stringUtf8 s))

def hexDigit (n : Nat) : Char := ("0123456789ABCDEF").data.getD n '0'

def uriUnreserved (c : Char) : Bool :=
  c.isAlphanum || c ∈ ['-', '_', '.', '!', '~', '*', '\'', '(', ')']

/-- JavaScript `encodeURIComponent`. -/
def encodeURIComponent (s : String) : String :=
  String.mk (s.data.flatMap fun c =>
    if uriUnreserved c then [c]
    else (utf8Bytes c).flatMap fun b =>
      ['%', hexDigit (b / 16), hexDigit (b % 16)])

/-! ## Header records (JavaScript `Record<string, string>` objects)

Keys are unique; assignment updates in place or appends, mirroring property
assignment and `Object.assign`. -/

def setHeader : List (String × String) → String → String → List (String × String)
  | [], k, v => [(k, v)]
  | (k', v') :: rest, k, v =>
    if k' = k then (k, v) :: rest else (k', v') :: setHeader rest k v

/-- `Object.assign(base, extra)`: later keys win. -/
def mergeHeaders (base extra : List (String × String)) : List (String × String) :=
  extra.foldl (fun acc kv => setHeader acc kv.1 kv.2) base

def getHeader (hs : List (String × String)) (k : String) : Option String :=
  (hs.find? (fun kv => kv.1 == k)).map (fun kv => kv.2)

theorem getHeader_setHeader_same (hs : List (String × String)) (k v : String) :
    getHeader (setHeader hs k v) k = some v := by
  induction hs with
  | nil => simp [setHeader, getHeader, List.find?]
  | cons kv rest ih =>
    by_cases hk : kv.1 = k
    · simp [setHeader, hk, getHeader, List.find?]
    · rw [show (kv :: rest : List (String × String)) = (kv.1, kv.2) :: rest by rfl,
        setHeader, if_neg hk]
      rw [getHeader, List.find?]
      have : ((kv.1, kv.2).1 == k) = false := beq_false_of_ne hk
      rw [this]
      exact ih

theorem getHeader_setHeader_other (hs : List (String × String)) (k k' v : String)
    (h : k' ≠ k) : getHeader (setHeader hs k' v) k = getHeader hs k := by
  induction hs with
  | nil => simp [setHeader, getHeader, List.find?, beq_false_of_ne h]
  | cons kv rest ih =>
    by_cases hk : kv.1 = k'
    · rw [show (kv :: rest : List (String × String)) = (kv.1, kv.2) :: rest by rfl,
        setHeader, if_pos hk]
      rw [getHeader, List.find?, getHeader, List.find?]
      have h1 : ((k', v).1 == k) = false := beq_false_of_ne h
      have h2 : ((kv.1, kv.2).1 == k) = false := beq_false_of_ne (hk ▸ h)
      rw [h1, h2]
    · rw [show (kv :: rest : List (String × String)) = (kv.1, kv.2) :: rest by rfl,
        setHeader, if_neg hk]
      rw [getHeader, List.find?, getHeader, List.find?]
      cases hkk : ((kv.1, kv.2).1 == k) with
      | true => rfl
      | false => exact ih

theorem getHeader_mergeHeaders_of_notin (base extra : List (String × String))
    (k : String) (h : ∀ kv ∈ extra, kv.1 ≠ k) :
    getHeader (mergeHeaders base extra) k = getHeader base k := by
  induction extra generalizing base with
  | nil => rfl
  | cons kv rest ih =>
    rw [mergeHeaders, List.foldl_cons]
    have step := ih (setHeader base kv.1 kv.2)
      (fun kv' hm => h kv' (List.mem_cons_of_mem _ hm))
    rw [show List.foldl (fun acc kv => setHeader acc kv.1 kv.2)
        (setHeader base kv.1 kv.2) rest
      = mergeHeaders (setHeader base kv.1 kv.2) rest from rfl]
    rw [step]
    exact getHeader_setHeader_other base k kv.1 kv.2
      (h kv (List.mem_cons_self _ _))

/-! ## HTTP model

The transport (`node-fetch`) is modelled as a deterministic function from
requests to responses; response headers are restricted to the ones the code
reads (`x-csrf-token`, raw `set-cookie`). -/

structure HttpRequest where
  url : String
  method : String
  headers : List (String × String)
  body : Option String
deriving DecidableEq

structure HttpResponse where
  status : Nat
  statusText : String
  bodyText : String
  xCsrfToken : Option String
  setCookies : List String
deriving DecidableEq

def Server : Type := HttpRequest → HttpResponse

/-- `response.ok` in node-fetch. -/
def httpOk (status : Nat) : Prop := 200 ≤ status ∧ status < 300

instance (status : Nat) : Decidable (httpOk status) := by
  unfold httpOk; infer_instance

/-- Structured embedding of the `Error` values thrown by the service; the
fields of `httpError` are exactly the values interpolated into
`ADT request failed: ${statusText} (${status})\n${responseText}`. -/
inductive AdtError where
  | configError (message : String)
  | httpError (status : Nat) (statusText : String) (body : String)
  | notConnected
deriving DecidableEq

/-! ## Session state (`AdtService` fields) -/

structure AdtState where
  baseUrl : String
  credentials : String
  csrfToken : String
  username : Option String
deriving DecidableEq

/-- The constructor (`new AdtService(isTestMode)`); configuration values are
passed explicitly.  A missing (or empty, hence falsy) host throws. -/
def makeService (isTestMode : Bool) (host port : Option String) :
    Except AdtError AdtState :=
  if isTestMode then
    .ok { baseUrl := "http://test.sap.server:44300/sap/bc/adt",
          credentials := "", csrfToken := "", username := none }
  else if jsTruthyOpt host then
    let protocol := if port = some "44300" then "https" else "http"
    .ok { baseUrl := protocol ++ "://" ++ jsInterp host ++ ":" ++ jsInterp port
            ++ "/sap/bc/adt",
          credentials := "", csrfToken := "", username := none }
  else
    .error (.configError
      "SAP host not configured. Please set abap-tools.defaultHost in settings.")

structure ConnectionInfo where
  url : String
  username : Option String
  isConnected : Bool
deriving DecidableEq

/-- `getConnectionInfo`: `isConnected` is `Boolean(this.credentials)` —
credentials only, the CSRF token is not consulted. -/
def getConnectionInfo (st : AdtState) : ConnectionInfo :=
  { url := st.baseUrl, username := st.username,
    isConnected := st.credentials != "" }

/-- `disconnect()`. -/
def disconnect (st : AdtState) : AdtState :=
  { st with credentials := "", csrfToken := "", username := none }

/-! ## The request engine (`AdtService.request`) -/

/-- `cookies[1] || cookies[0]`: the second cookie wins unless it is absent
or falsy (empty). -/
def cookieToForward : List String → String
  | [] => ""
  | [c0] => c0
  | c0 :: c1 :: _ => if c1 = "" then c0 else c1

/-- The dedicated CSRF bootstrap fetch issued against `/discovery`. -/
def discoveryRequest (st : AdtState) : HttpRequest :=
  { url := st.baseUrl ++ "/discovery", method := "GET",
    headers := [("Accept", "*/*"),
                ("Authorization", "Basic " ++ st.credentials),
                ("X-CSRF-Token", "Fetch")],
    body := none }

instance exceptDecEq {ε α : Type} [DecidableEq ε] [DecidableEq α] :
    DecidableEq (Except ε α)
  | .error e, .error f =>
    if h : e = f then .isTrue (by rw [h])
    else .isFalse (by intro hh; cases hh; exact h rfl)
  | .error _, .ok _ => .isFalse (by intro hh; cases hh)
  | .ok _, .error _ => .isFalse (by intro hh; cases hh)
  | .ok a, .ok b =>
    if h : a = b then .isTrue (by rw [h])
    else .isFalse (by intro hh; cases hh; exact h rfl)

structure RequestResult where
  bootstrap : Option HttpRequest
  real : HttpRequest
  state : AdtState
  outcome : Except AdtError String
deriving DecidableEq

/-- The wire sequence a `request` call issues, in order. -/
def RequestResult.fetches (r : RequestResult) : List HttpRequest :=
  r.bootstrap.toList ++ [r.real]

/-- `AdtService.request(path, method, body?, headers?)`.  Base headers are
merged with caller headers (`Object.assign`, caller wins), then a CSRF
bootstrap runs for every non-GET request or whenever no token is cached;
the token and a forwarded cookie are attached, the real request issued, and
non-2xx statuses raise `httpError` carrying status, status text and the
full response body text. -/
def request (srv : Server) (st : AdtState) (path : String) (method : String)
    (body : Option String) (extraHeaders : List (String × String)) :
    RequestResult :=
  let defaultHeaders :=
    mergeHeaders [("Authorization", "Basic " ++ st.credentials),
                  ("Accept", "*/*")] extraHeaders
  if method ≠ "GET" ∨ st.csrfToken = "" then
    let dreq := discoveryRequest st
    let dresp := srv dreq
    let token := dresp.xCsrfToken.getD ""
    let hdrs1 :=
      if dresp.setCookies ≠ [] then
        setHeader defaultHeaders "Cookie" (cookieToForward dresp.setCookies)
      else defaultHeaders
    let hdrs2 :=
      if method ≠ "GET" then setHeader hdrs1 "X-CSRF-Token" token else hdrs1
    let rreq : HttpRequest :=
      { url := st.baseUrl ++ path, method := method, headers := hdrs2,
        body := body }
    let rresp := srv rreq
    { bootstrap := some dreq, real := rreq,
      state := { st with csrfToken := token },
      outcome :=
        if httpOk rresp.status then .ok rresp.bodyText
        else .error (.httpError rresp.status rresp.statusText rresp.bodyText) }
  else
    let hdrs2 :=
      if method ≠ "GET" then setHeader defaultHeaders "X-CSRF-Token" st.csrfToken
      else defaultHeaders
    let rreq : HttpRequest :=
      { url := st.baseUrl ++ path, method := method, headers := hdrs2,
        body := body }
    let rresp := srv rreq
    { bootstrap := none, real := rreq, state := st,
      outcome :=
        if httpOk rresp.status then .ok rresp.bodyText
        else .error (.httpError rresp.status rresp.statusText rresp.bodyText) }

/-- `discoverService()`: a plain GET of `/discovery` through `request`;
its decoded return value (always `{links: []}`) is irrelevant here. -/
def discoverService (srv : Server) (st : AdtState) : RequestResult :=
  request srv st "/discovery" "GET" none []

/-- `setCredentials(username, password)`: stores the username and the
base64-encoded credentials, then probes reachability with
`discoverService`; a probe failure propagates but nothing is rolled back. -/
def setCredentials (srv : Server) (st : AdtState) (username password : String) :
    AdtState × Except AdtError Unit :=
  let st1 := { st with
    username := some username,
    credentials := base64Encode (username ++ ":" ++ password) }
  let r := discoverService srv st1
  (r.state, r.outcome.map fun _ => ())

/-! ## Flat package listing (`getPackages`)

The xml2js parse of the `asx:abap` response plus the container selection
(`result?.["asx:abap"]?.["asx:values"]?.DATA.TREE_CONTENT.
SEU_ADT_REPOSITORY_OBJ_NODE || []`, wrapped into an array) is abstracted as
a decoding oracle producing the node records the loop iterates over. -/

structure SeuNode where
  OBJECT_NAME : Option String
  OBJECT_URI : Option String
  OBJECT_TYPE : Option String
  OBJECT_DESCRIPTION : Option String
deriving DecidableEq

structure AdtPackage where
  name : String
  uri : String
  type : String
  description : Option String
  whatisclicked : String
  hasChildrenOfSameFacet : String
deriving DecidableEq

/-- The `nodeArray.forEach` loop of `getPackages`: keep nodes whose
`OBJECT_NAME` and `OBJECT_URI` are truthy. -/
def parsePackages (nodes : List SeuNode) : List AdtPackage :=
  nodes.filterMap fun n =>
    if jsTruthyOpt n.OBJECT_NAME && jsTruthyOpt n.OBJECT_URI then
      some { name := jsInterp n.OBJECT_NAME,
             uri := jsInterp n.OBJECT_URI,
             type := jsOrOpt n.OBJECT_TYPE "DEVC/K",
             description := n.OBJECT_DESCRIPTION,
             whatisclicked := "package",
             hasChildrenOfSameFacet := "true" }
    else none

structure PackagesResult where
  fetches : List HttpRequest
  state : AdtState
  outcome : Except AdtError (List AdtPackage)
deriving DecidableEq

/-- `getPackages(parentUri?)`: guard (`Not connected to SAP`) before any
network traffic, then two POSTs to `/repository/nodestructure` and the XML
parse of the first response. -/
def getPackages (srv : Server) (decodeNodes : String → List SeuNode)
    (st : AdtState) (parentUri : Option String) : PackagesResult :=
  if st.credentials = "" then
    { fetches := [], state := st, outcome := .error .notConnected }
  else
    let path :=
      if jsTruthyOpt parentUri then
        "/repository/nodestructure?parent_uri=/sap/bc/adt/repository/informationsystem/mainpackages/"
          ++ jsInterp parentUri
      else
        "/repository/nodestructure?parent_uri=/sap/bc/adt/repository/informationsystem/mainpackages"
    let path2 :=
      "/repository/nodestructure?parent_type=DEVC/K&withShortDescriptions=${true}&parent_name=ZTEST61"
    let r1 := request srv st path "POST" none []
    match r1.outcome with
    | .error e => { fetches := r1.fetches, state := r1.state, outcome := .error e }
    | .ok responseText =>
      let r2 := request srv r1.state path2 "POST" none []
      match r2.outcome with
      | .error e =>
        { fetches := r1.fetches ++ r2.fetches, state := r2.state,
          outcome := .error e }
      | .ok _ =>
        { fetches := r1.fetches ++ r2.fetches, state := r2.state,
          outcome := .ok (parsePackages (decodeNodes responseText)) }

/-! ## Facet navigation (`getVirtualFolderContents`)

The request body is one of five XML templates chosen by `facetValue`; the
constants below are the literal template pieces between interpolation
holes, with the source's exact whitespace. -/

def vfsHeader : String :=
  "<vfs:virtualFoldersRequest xmlns:vfs=\"http://www.sap.com/adt/ris/virtualFolders\" objectSearchPattern=\"*\">"

def vfsBody1a : String := vfsHeader ++ "\n        <vfs:preselection facet=\""

def vfsBody1b : String := "\">\n        <vfs:value>"

def vfsBody1c : String :=
  "</vfs:value>\n        </vfs:preselection>\n        <vfs:facetorder>\n        <vfs:facet>package</vfs:facet>\n        <vfs:facet>group</vfs:facet>\n        <vfs:facet>type</vfs:facet>\n        </vfs:facetorder>\n        </vfs:virtualFoldersRequest>"

def vfsBody2a : String :=
  vfsHeader ++ "\n        <vfs:preselection facet=\"package\">\n        <vfs:value>.."

def vfsBody2b : String :=
  "</vfs:value>\n        </vfs:preselection>\n        <vfs:facetorder>\n         \n        <vfs:facet>group</vfs:facet>\n        <vfs:facet>type</vfs:facet>\n        </vfs:facetorder>\n        </vfs:virtualFoldersRequest>"

def vfsBody3c : String :=
  "</vfs:value>\n        </vfs:preselection>\n        <vfs:preselection facet=\"package\">\n        <vfs:value>.."

def vfsBody3d : String :=
  "</vfs:value>\n        </vfs:preselection>\n        <vfs:facetorder>\n        <vfs:facet>type</vfs:facet>\n        </vfs:facetorder>\n        </vfs:virtualFoldersRequest>"

def vfsBody4a : String :=
  vfsHeader ++ "\n                    <vfs:preselection facet=\"group\">\n                    <vfs:value>SOURCE_LIBRARY</vfs:value>\n                    </vfs:preselection>\n                    <vfs:preselection facet=\"package\">\n                    <vfs:value>.."

def vfsBody4b : String :=
  "</vfs:value>\n                    </vfs:preselection>\n                    <vfs:preselection facet=\"type\">\n                    <vfs:value>"

def vfsBody4c : String :=
  "</vfs:value>\n                    </vfs:preselection>\n                    <vfs:facetorder></vfs:facetorder>\n                    </vfs:virtualFoldersRequest>\n                    "

def vfsBody5a : String :=
  vfsHeader ++ "\n                        <vfs:preselection facet=\""

def vfsBody5b : String := "\">\n                        <vfs:value>"

def vfsBody5c : String :=
  "</vfs:value>\n                        </vfs:preselection>\n                        <vfs:preselection facet=\"package\">\n                        <vfs:value>.."

def vfsBody5d : String :=
  "</vfs:value>\n                        </vfs:preselection>\n                        <vfs:preselection facet=\"type\">\n                        <vfs:value>"

def vfsBody5e : String :=
  "</vfs:value>\n                        </vfs:preselection>\n                        <vfs:facetorder></vfs:facetorder>\n                        </vfs:virtualFoldersRequest>"

/-- The facet-kind-driven XML request-body construction of
`getVirtualFolderContents` (the `package`/`PACKAGE`/`GROUP`/`TYPE`/default
branches; the `package` and `GROUP` templates share their literal pieces). -/
def vfsRequestBody (facetValue name groupName parentName
    actualPackageName : String) : String :=
  if facetValue = "package" then
    vfsBody1a ++ facetValue ++ vfsBody1b ++ name ++ vfsBody1c
  else if facetValue = "PACKAGE" then
    vfsBody2a ++ name ++ vfsBody2b
  else if facetValue = "GROUP" then
    vfsBody1a ++ facetValue ++ vfsBody1b ++ name ++ vfsBody3c
      ++ actualPackageName ++ vfsBody3d
  else if facetValue = "TYPE" then
    vfsBody4a ++ actualPackageName ++ vfsBody4b ++ parentName ++ vfsBody4c
  else
    vfsBody5a ++ facetValue ++ vfsBody5b ++ name ++ vfsBody5c
      ++ actualPackageName ++ vfsBody5d ++ groupName ++ vfsBody5e

/-! ## Decoding the `virtualFoldersResult` response

xml2js (with `xmlns: true`) yields one record per `virtualFolder` element;
an element's attribute map `$` may be absent, and each attribute may be
absent.  `VfAttrs.name` is the `name` attribute; the code reads it without
optional chaining, and the response schema always carries it. -/

structure VfAttrs where
  name : String
  displayName : Option String
  counter : Option String
  facet : Option String
  type : Option String
  vituri : Option String
  expandable : Option String
  hasChildrenOfSameFacet : Option String
deriving DecidableEq

structure VirtualFolder where
  name : String
  displayName : String
  counter : Option Int
  facet : String
  type : Option String
  vituri : Option String
  isExpandable : Bool
  whatisclicked : String
  hasChildrenOfSameFacet : Option String
deriving DecidableEq

/-- The record pushed for one `virtualFolder` element with attributes `a`
(`counter` is `none` when `parseInt` yields `NaN`; the pushed
`whatisclicked` is the literal `"false"`, the locally computed value being
unused in the source). -/
def decodeVfEntry (facetValue : String) (a : VfAttrs) : VirtualFolder :=
  { name := a.name,
    displayName := jsOrOpt a.displayName a.name,
    counter := jsParseInt (jsOrOpt a.counter "0"),
    facet := jsOrOpt a.facet facetValue,
    type := a.type,
    vituri := a.vituri,
    isExpandable := a.expandable == some "true",
    whatisclicked := "false",
    hasChildrenOfSameFacet := a.hasChildrenOfSameFacet }

/-- The `objectArray.forEach` loop: elements without an attribute map
(`if (obj.$)`) are skipped, every other element yields one record, in
document order. -/
def decodeVirtualFolders (facetValue : String)
    (objs : List (Option VfAttrs)) : List VirtualFolder :=
  objs.filterMap fun o => o.map (decodeVfEntry facetValue)

def vfsContentHeaders : List (String × String) :=
  [("Accept", "application/vnd.sap.adt.repository.virtualfolders.result.v1+xml"),
   ("Content-Type",
     "application/vnd.sap.adt.repository.virtualfolders.request.v1+xml"),
   ("User-Agent", "vscode-abap-tools"),
   ("X-sap-adt-profiling", "server-time")]

structure VfcResult where
  fetches : List HttpRequest
  state : AdtState
  outcome : Except AdtError (List VirtualFolder)

/-- `getVirtualFolderContents(packageName, facetValue, name, groupName,
parentName)`: derive the actual package name as the last `/`-segment of
`packageName`, build the per-facet body, POST it, and decode the response
(`decodeXml` abstracts the xml2js parse and container selection). -/
def getVirtualFolderContents (srv : Server)
    (decodeXml : String → List (Option VfAttrs)) (st : AdtState)
    (packageName facetValue name groupName parentName : String) : VfcResult :=
  let actualPackageName := (packageName.splitOn "/").getLastD ""
  let body := vfsRequestBody facetValue name groupName parentName
    actualPackageName
  let r := request srv st "/repository/informationsystem/virtualfolders/contents"
    "POST" (some body) vfsContentHeaders
  { fetches := r.fetches, state := r.state,
    outcome := r.outcome.map fun responseText =>
      decodeVirtualFolders facetValue (decodeXml responseText) }

/-! ## Class creation (`createClass`) -/

structure ClassDetails where
  name : String
  description : String
  superclass : Option String
  interfaces : Option (List String)
  package : Option String
  language : Option String
deriving DecidableEq

def validationPath (d : ClassDetails) : String :=
  "/oo/validation/objectname?objname=" ++ encodeURIComponent d.name
    ++ "&type=CLAS/OC"

def classInterfacesXml (d : ClassDetails) : String :=
  match d.interfaces with
  | none => ""
  | some l =>
    jsOrStr (String.intercalate "\n"
      (l.map fun i => "<class:interface>" ++ i ++ "</class:interface>")) ""

/-- The XML class-definition document POSTed to `/oo/classes` (an
`undefined` package interpolates as the string `"undefined"`). -/
def classCreateBody (d : ClassDetails) : String :=
  "<?xml version=\"1.0\" encoding=\"UTF-8\"?>\n            <class:abapClass xmlns:class=\"http://www.sap.com/adt/oo/classes\"\n                            xmlns:adtcore=\"http://www.sap.com/adt/core\"\n                            abapLanguageVersion=\"standard\">\n                <adtcore:name>"
    ++ d.name
    ++ "</adtcore:name>\n                <adtcore:description>"
    ++ d.description
    ++ "</adtcore:description>\n                <adtcore:packageRef>\n                    <adtcore:name>"
    ++ jsInterp d.package
    ++ "</adtcore:name>\n                </adtcore:packageRef>\n                <class:superClass>"
    ++ jsOrOpt d.superclass ""
    ++ "</class:superClass>\n                "
    ++ classInterfacesXml d
    ++ "\n            </class:abapClass>"

def classInterfacesSource (d : ClassDetails) : String :=
  match d.interfaces with
  | none => ""
  | some l =>
    jsOrStr (String.intercalate "\n    "
      (l.map fun i => "INTERFACES " ++ i ++ ".")) ""

/-- `generateClassSource`: the skeleton source PUT to the new class. -/
def generateClassSource (d : ClassDetails) : String :=
  "CLASS " ++ d.name
    ++ " DEFINITION\n  PUBLIC\n  FINAL\n  CREATE PUBLIC.\n\n  PUBLIC SECTION.\n    "
    ++ classInterfacesSource d
    ++ "\n  PROTECTED SECTION.\n  PRIVATE SECTION.\nENDCLASS.\n\nCLASS "
    ++ d.name ++ " IMPLEMENTATION.\nENDCLASS."

structure CreateClassResult where
  calls : List HttpRequest
  state : AdtState
  outcome : Except AdtError Unit

/-- Step (a) of `createClass`: the name-validation GET. -/
def createClassStep1 (srv : Server) (st : AdtState) (d : ClassDetails) :
    RequestResult :=
  request srv st (validationPath d) "GET" none [("Accept", "application/json")]

/-- Step (b) of `createClass`: the class-creation POST (issued from the
session state step (a) left behind). -/
def createClassStep2 (srv : Server) (st : AdtState) (d : ClassDetails) :
    RequestResult :=
  request srv (createClassStep1 srv st d).state "/oo/classes" "POST"
    (some (classCreateBody d))
    [("Content-Type", "application/vnd.sap.adt.oo.classes.v2+xml"),
     ("Accept", "application/vnd.sap.adt.oo.classes.v2+xml")]

/-- Step (c) of `createClass`: the source PUT. -/
def createClassStep3 (srv : Server) (st : AdtState) (d : ClassDetails) :
    RequestResult :=
  request srv (createClassStep2 srv st d).state
    ("/oo/classes/" ++ d.name ++ "/source/main") "PUT"
    (some (generateClassSource d))
    [("Content-Type", "text/plain; charset=utf-8"), ("Accept", "text/plain")]

/-- `createClass(details)`: name-validation GET, then class-creation POST,
then source PUT; each `await` propagates a failure, aborting the remaining
steps, and nothing compensates for steps already performed.  `calls` lists
the ADT-level requests actually issued, in order. -/
def createClass (srv : Server) (st : AdtState) (d : ClassDetails) :
    CreateClassResult :=
  let r1 := createClassStep1 srv st d
  match r1.outcome with
  | .error e => { calls := [r1.real], state := r1.state, outcome := .error e }
  | .ok _ =>
    let r2 := createClassStep2 srv st d
    match r2.outcome with
    | .error e =>
      { calls := [r1.real, r2.real], state := r2.state, outcome := .error e }
    | .ok _ =>
      let r3 := createClassStep3 srv st d
      { calls := [r1.real, r2.real, r3.real], state := r3.state,
        outcome := match r3.outcome with
          | .error e => .error e
          | .ok _ => .ok () }

/-! ## The tree-view navigation layer (`PackageHierarchyProvider.getChildren`)

Only the fields the provider logic reads are modelled; `parentLabel`
stands for `parent?.label` (the only use of the `parent` reference). -/

structure PackageItem where
  label : String
  packageUri : Option String
  itemType : String
  counter : Option Int
  facet : Option String
  whatisclicked : Option String
  hasChildrenOfSameFacet : Option String
  parentLabel : Option String
  vituri : Option String
deriving DecidableEq

def notConnectedItem : PackageItem :=
  { label := "Not connected to SAP", packageUri := none, itemType := "package",
    counter := none, facet := none, whatisclicked := none,
    hasChildrenOfSameFacet := none, parentLabel := none, vituri := none }

def errorLoadingItem : PackageItem :=
  { label := "Error loading items", packageUri := none, itemType := "package",
    counter := none, facet := none, whatisclicked := none,
    hasChildrenOfSameFacet := none, parentLabel := none, vituri := none }

/-- Item built from a child of a resolved indirection (`PACKAGE`) node; the
source omits the `vituri` argument in this branch. -/
def mkSubItem (element : PackageItem) (sub : VirtualFolder) : PackageItem :=
  { label := sub.name, packageUri := element.packageUri,
    itemType := "virtualFolder", counter := sub.counter,
    facet := some sub.facet, whatisclicked := some sub.whatisclicked,
    hasChildrenOfSameFacet := sub.hasChildrenOfSameFacet,
    parentLabel := some element.label, vituri := none }

/-- Item built from an ordinary (non-indirection) virtual folder. -/
def mkFolderItem (element : PackageItem) (f : VirtualFolder) : PackageItem :=
  { label := f.name, packageUri := element.packageUri,
    itemType := "virtualFolder", counter := f.counter,
    facet := some f.facet, whatisclicked := some f.whatisclicked,
    hasChildrenOfSameFacet := f.hasChildrenOfSameFacet,
    parentLabel := some element.label, vituri := f.vituri }

/-- The loop's branch condition:
`folder.facet === 'PACKAGE' && folder.name.startsWith('..')`. -/
def isIndirection (f : VirtualFolder) : Bool :=
  f.facet == "PACKAGE" && jsStartsWith f.name ".."

/-- The follow-up call the loop issues for an indirection node:
`getVirtualFolderContents(element.packageUri!, 'PACKAGE',
folder.name.substring(2), "SOURCE_LIBRARY", element.parent?.label || "")`. -/
def followUp (srv : Server) (decodeXml : String → List (Option VfAttrs))
    (element : PackageItem) (st : AdtState) (f : VirtualFolder) : VfcResult :=
  getVirtualFolderContents srv decodeXml st (element.packageUri.getD "")
    "PACKAGE" (f.name.drop 2) "SOURCE_LIBRARY" (element.parentLabel.getD "")

/-- The `for (const folder of virtualFolders)` loop in the `package` branch
of `getChildren`: a `PACKAGE`-facet folder whose name starts with the `..`
marker is re-resolved one level (the `followUp` call) and its children are
pushed in its place; every other folder is pushed itself.  A failing
follow-up call propagates (the provider catch turns it into the error
item). -/
def processFolders (srv : Server) (decodeXml : String → List (Option VfAttrs))
    (element : PackageItem) :
    AdtState → List VirtualFolder →
    List HttpRequest × AdtState × Except AdtError (List PackageItem)
  | st, [] => ([], st, .ok [])
  | st, f :: fs =>
    if isIndirection f then
      let sub := followUp srv decodeXml element st f
      match sub.outcome with
      | .error e => (sub.fetches, sub.state, .error e)
      | .ok subs =>
        let rest := processFolders srv decodeXml element sub.state fs
        (sub.fetches ++ rest.1, rest.2.1,
         rest.2.2.map fun items => subs.map (mkSubItem element) ++ items)
    else
      let rest := processFolders srv decodeXml element st fs
      (rest.1, rest.2.1,
       rest.2.2.map fun items => mkFolderItem element f :: items)

/-- The `element.type === 'package'` branch of `getChildren` (with the
initial connection guard and the surrounding catch). -/
def getChildrenOfPackage (srv : Server)
    (decodeXml : String → List (Option VfAttrs)) (st : AdtState)
    (element : PackageItem) :
    List HttpRequest × AdtState × List PackageItem :=
  if (getConnectionInfo st).isConnected = false then ([], st, [notConnectedItem])
  else
    let r0 := getVirtualFolderContents srv decodeXml st
      (element.packageUri.getD "") "package" element.label "SOURCE_LIBRARY" ""
    match r0.outcome with
    | .error _ => (r0.fetches, r0.state, [errorLoadingItem])
    | .ok folders =>
      let rest := processFolders srv decodeXml element r0.state folders
      match rest.2.2 with
      | .error _ => (r0.fetches ++ rest.1, rest.2.1, [errorLoadingItem])
      | .ok items => (r0.fetches ++ rest.1, rest.2.1, items)

/-! ## Reading the preselection structure back out of a request body

`extractPreselections` lists, in document order, each
`(facet, value)` pair of a `<vfs:preselection facet="...""><vfs:value>...`
block, and `extractFacetOrder` the facets inside `<vfs:facetorder>`.  These
let the literal XML bodies be compared against the specification's
per-facet-kind table. -/

def preselMark : List Char := ("<vfs:preselection facet=\"").data

def quotMark : List Char := ("\"").data

def valueOpen : List Char := ("<vfs:value>").data

def valueClose : List Char := ("</vfs:value>").data

def facetorderOpen : List Char := ("<vfs:facetorder>").data

def facetorderClose : List Char := ("</vfs:facetorder>").data

def facetOpen : List Char := ("<vfs:facet>").data

def facetClose : List Char := ("</vfs:facet>").data

/-- One preselection block: its facet (up to the closing quote) and its
value (between the value tags). -/
def preselOf (rest : List Char) : String × String :=
  (String.mk (takeUntil quotMark rest),
   String.mk (takeUntil valueClose ((dropThrough valueOpen rest).getD [])))

def preselsF : Nat → List Char → List (String × String)
  | 0, _ => []
  | fuel + 1, s =>
    match dropThrough preselMark s with
    | none => []
    | some rest => preselOf rest :: preselsF fuel rest

def facetItemsF : Nat → List Char → List String
  | 0, _ => []
  | fuel + 1, s =>
    match dropThrough facetOpen s with
    | none => []
    | some rest => String.mk (takeUntil facetClose rest) :: facetItemsF fuel rest

def presels (s : List Char) : List (String × String) := preselsF s.length s

def facetItems (s : List Char) : List String := facetItemsF s.length s

def extractPreselections (body : String) : List (String × String) :=
  presels body.data

def extractFacetOrder (body : String) : List String :=
  facetItems (takeUntil facetorderClose
    ((dropThrough facetorderOpen body.data).getD []))

theorem preselsF_nil (fuel : Nat) : preselsF fuel [] = [] := by
  cases fuel with
  | zero => rfl
  | succ n =>
    rw [preselsF]
    rw [show dropThrough preselMark [] = none from rfl]

theorem preselsF_congr (fuel : Nat) : ∀ (fuel' : Nat) (s : List Char),
    s.length ≤ fuel → s.length ≤ fuel' → preselsF fuel s = preselsF fuel' s := by
  induction fuel with
  | zero =>
    intro fuel' s h _
    have hs : s = [] := List.length_eq_zero.mp (Nat.le_zero.mp h)
    rw [hs, preselsF_nil, preselsF_nil]
  | succ n ih =>
    intro fuel' s hs hs'
    cases fuel' with
    | zero =>
      have hz : s = [] := List.length_eq_zero.mp (Nat.le_zero.mp hs')
      rw [hz, preselsF_nil, preselsF_nil]
    | succ m =>
      rw [preselsF, preselsF]
      cases hd : dropThrough preselMark s with
      | none => rfl
      | some rest =>
        have hlt : rest.length < s.length :=
          dropThrough_length_lt (by decide) hd
        show preselOf rest :: preselsF n rest = preselOf rest :: preselsF m rest
        rw [ih m rest (by omega) (by omega)]

theorem presels_of_none {s : List Char}
    (h : dropThrough preselMark s = none) : presels s = [] := by
  unfold presels
  cases hl : s.length with
  | zero => rfl
  | succ n => rw [preselsF, h]

theorem presels_of_some {s rest : List Char}
    (h : dropThrough preselMark s = some rest) :
    presels s = preselOf rest :: presels rest := by
  unfold presels
  cases s with
  | nil => rw [show dropThrough preselMark ([] : List Char) = none from rfl] at h; cases h
  | cons c cs =>
    have hlt : rest.length < (c :: cs).length :=
      dropThrough_length_lt (by decide) h
    simp only [List.length_cons] at hlt
    rw [show (c :: cs).length = cs.length + 1 from rfl, preselsF, h]
    show preselOf rest :: preselsF cs.length rest
      = preselOf rest :: preselsF rest.length rest
    rw [preselsF_congr cs.length rest.length rest (by omega) (Nat.le_refl _)]

theorem facetItemsF_nil (fuel : Nat) : facetItemsF fuel [] = [] := by
  cases fuel with
  | zero => rfl
  | succ n =>
    rw [facetItemsF]
    rw [show dropThrough facetOpen [] = none from rfl]

theorem facetItemsF_congr (fuel : Nat) : ∀ (fuel' : Nat) (s : List Char),
    s.length ≤ fuel → s.length ≤ fuel' →
    facetItemsF fuel s = facetItemsF fuel' s := by
  induction fuel with
  | zero =>
    intro fuel' s h _
    have hs : s = [] := List.length_eq_zero.mp (Nat.le_zero.mp h)
    rw [hs, facetItemsF_nil, facetItemsF_nil]
  | succ n ih =>
    intro fuel' s hs hs'
    cases fuel' with
    | zero =>
      have hz : s = [] := List.length_eq_zero.mp (Nat.le_zero.mp hs')
      rw [hz, facetItemsF_nil, facetItemsF_nil]
    | succ m =>
      rw [facetItemsF, facetItemsF]
      cases hd : dropThrough facetOpen s with
      | none => rfl
      | some rest =>
        have hlt : rest.length < s.length :=
          dropThrough_length_lt (by decide) hd
        show String.mk (takeUntil facetClose rest) :: facetItemsF n rest
          = String.mk (takeUntil facetClose rest) :: facetItemsF m rest
        rw [ih m rest (by omega) (by omega)]

theorem facetItems_of_none {s : List Char}
    (h : dropThrough facetOpen s = none) : facetItems s = [] := by
  unfold facetItems
  cases hl : s.length with
  | zero => rfl
  | succ n => rw [facetItemsF, h]

theorem facetItems_of_some {s rest : List Char}
    (h : dropThrough facetOpen s = some rest) :
    facetItems s = String.mk (takeUntil facetClose rest) :: facetItems rest := by
  unfold facetItems
  cases s with
  | nil => rw [show dropThrough facetOpen ([] : List Char) = none from rfl] at h; cases h
  | cons c cs =>
    have hlt : rest.length < (c :: cs).length :=
      dropThrough_length_lt (by decide) h
    simp only [List.length_cons] at hlt
    rw [show (c :: cs).length = cs.length + 1 from rfl, facetItemsF, h]
    show String.mk (takeUntil facetClose rest) :: facetItemsF cs.length rest
      = String.mk (takeUntil facetClose rest) :: facetItems rest
    unfold facetItems
    rw [facetItemsF_congr cs.length rest.length rest (by omega) (Nat.le_refl _)]

/-! ## The specification's per-facet-kind table (§4.3), with the `GROUP`
row's facet spelled the way the code emits it (verbatim `GROUP`). -/

def specPreselections (facetValue name groupName parentName
    actualPackageName : String) : List (String × String) :=
  if facetValue = "package" then [("package", name)]
  else if facetValue = "PACKAGE" then [("package", ".." ++ name)]
  else if facetValue = "GROUP" then
    [("GROUP", name), ("package", ".." ++ actualPackageName)]
  else if facetValue = "TYPE" then
    [("group", "SOURCE_LIBRARY"), ("package", ".." ++ actualPackageName),
     ("type", parentName)]
  else
    [(facetValue, name), ("package", ".." ++ actualPackageName),
     ("type", groupName)]

def specFacetOrder (facetValue : String) : List String :=
  if facetValue = "package" then ["package", "group", "type"]
  else if facetValue = "PACKAGE" then ["group", "type"]
  else if facetValue = "GROUP" then ["type"]
  else []

/-! ## Reachable session states -/

/-- States reachable through the public operations: construction,
`setCredentials`, `disconnect`, and any `request`. -/
inductive Reachable : AdtState → Prop
  | construct (isTestMode : Bool) (host port : Option String) (st : AdtState) :
      makeService isTestMode host port = .ok st → Reachable st
  | setCred (srv : Server) (st : AdtState) (u p : String) :
      Reachable st → Reachable (setCredentials srv st u p).1
  | disc (st : AdtState) : Reachable st → Reachable (disconnect st)
  | req (srv : Server) (st : AdtState) (path method : String)
      (body : Option String) (extra : List (String × String)) :
      Reachable st → Reachable (request srv st path method body extra).state

/-! ## Concrete fixtures shared by witnesses and counterexamples -/

def testModeState : AdtState :=
  { baseUrl := "http://test.sap.server:44300/sap/bc/adt", credentials := "",
    csrfToken := "", username := none }

def connectedState : AdtState :=
  { baseUrl := "http://test.sap.server:44300/sap/bc/adt",
    credentials := "dXNlcjpwYXNz", csrfToken := "", username := some "user" }

def okServer : Server := fun _ =>
  { status := 200, statusText := "OK", bodyText := "<ok/>",
    xCsrfToken := some "TOK", setCookies := [] }

def deniedServer : Server := fun _ =>
  { status := 401, statusText := "Unauthorized", bodyText := "denied",
    xCsrfToken := none, setCookies := [] }

def abcServer : Server := fun _ =>
  { status := 200, statusText := "OK", bodyText := "<disc/>",
    xCsrfToken := some "ABC123", setCookies := [] }

def oneCookieServer : Server := fun _ =>
  { status := 200, statusText := "OK", bodyText := "",
    xCsrfToken := some "TOK", setCookies := ["sap-sid=1"] }

def twoCookieServer : Server := fun _ =>
  { status := 200, statusText := "OK", bodyText := "",
    xCsrfToken := some "TOK", setCookies := ["first=1", ""] }

/-! ## Basic facts about `request` -/

theorem request_real_method (srv : Server) (st : AdtState) (path method : String)
    (body : Option String) (extra : List (String × String)) :
    (request srv st path method body extra).real.method = method := by
  unfold request; split <;> rfl

theorem request_real_url (srv : Server) (st : AdtState) (path method : String)
    (body : Option String) (extra : List (String × String)) :
    (request srv st path method body extra).real.url = st.baseUrl ++ path := by
  unfold request; split <;> rfl

theorem request_real_body (srv : Server) (st : AdtState) (path method : String)
    (body : Option String) (extra : List (String × String)) :
    (request srv st path method body extra).real.body = body := by
  unfold request; split <;> rfl

theorem request_state_credentials (srv : Server) (st : AdtState)
    (path method : String) (body : Option String)
    (extra : List (String × String)) :
    (request srv st path method body extra).state.credentials
      = st.credentials := by
  unfold request; split <;> rfl

theorem request_state_baseUrl (srv : Server) (st : AdtState)
    (path method : String) (body : Option String)
    (extra : List (String × String)) :
    (request srv st path method body extra).state.baseUrl = st.baseUrl := by
  unfold request; split <;> rfl

theorem request_state_username (srv : Server) (st : AdtState)
    (path method : String) (body : Option String)
    (extra : List (String × String)) :
    (request srv st path method body extra).state.username = st.username := by
  unfold request; split <;> rfl

theorem request_outcome_eq (srv : Server) (st : AdtState) (path method : String)
    (body : Option String) (extra : List (String × String)) :
    (request srv st path method body extra).outcome =
      if httpOk (srv (request srv st path method body extra).real).status
      then .ok (srv (request srv st path method body extra).real).bodyText
      else .error (.httpError
        (srv (request srv st path method body extra).real).status
        (srv (request srv st path method body extra).real).statusText
        (srv (request srv st path method body extra).real).bodyText) := by
  unfold request; split <;> rfl

/-! ## Nonemptiness of base64-encoded credentials -/

theorem utf8Bytes_ne_nil (c : Char) : utf8Bytes c ≠ [] := by
  unfold utf8Bytes
  dsimp only
  split_ifs <;> simp

theorem stringUtf8_ne_nil {s : String} (h : s.data ≠ []) : stringUtf8 s ≠ [] := by
  unfold stringUtf8
  cases hd : s.data with
  | nil => exact absurd hd h
  | cons c cs =>
    rw [List.flatMap_cons]
    intro hemp
    rcases List.append_eq_nil.mp hemp with ⟨h1, _⟩
    exact utf8Bytes_ne_nil c h1

theorem base64Chunks_ne_nil {bs : List Nat} (h : bs ≠ []) :
    base64Chunks bs ≠ [] := by
  match bs with
  | [] => exact absurd rfl h
  | [b0] => simp [base64Chunks]
  | [b0, b1] => simp [base64Chunks]
  | b0 :: b1 :: b2 :: rest => simp [base64Chunks]

theorem base64Encode_ne_empty {s : String} (h : s.data ≠ []) :
    base64Encode s ≠ "" := by
  unfold base64Encode
  intro he
  have hdata : base64Chunks (stringUtf8 s) = [] := by
    have := congrArg String.data he
    exact this
  exact base64Chunks_ne_nil (stringUtf8_ne_nil h) hdata

/-! ## Claim theorems -/

/-- C3: in every session state reachable through the public operations
(construction, `setCredentials`, `disconnect`, any `request`),
`getConnectionInfo` reports `isConnected = true` iff credentials are
present; the CSRF token does not enter the computation at all (changing it
leaves the whole `ConnectionInfo` unchanged). -/
theorem isConnected_iff_credentials (st : AdtState) (h : Reachable st) :
    ((getConnectionInfo st).isConnected = true ↔ st.credentials ≠ "") ∧
    (∀ t : String,
      getConnectionInfo { st with csrfToken := t } = getConnectionInfo st) := by
  refine ⟨?_, fun t => rfl⟩
  unfold getConnectionInfo
  simp [bne_iff_ne]

/-- Witness for C3: the freshly constructed test-mode session is reachable
and satisfies the invariant. -/
theorem isConnected_iff_credentials_witness :
    Reachable testModeState ∧
    ((getConnectionInfo testModeState).isConnected = true ↔
      testModeState.credentials ≠ "") :=
  have hr : Reachable testModeState :=
    Reachable.construct true none none testModeState rfl
  ⟨hr, (isConnected_iff_credentials testModeState hr).1⟩

/-- C2 counterexample: a `setCredentials` whose probe is rejected (HTTP 401)
surfaces the error, yet `getConnectionInfo` afterwards reports
`isConnected = true` — the credentials were stored before the probe and are
not cleared on failure, refuting "becomes true only after a successful
`setCredentials` probe". -/
theorem failed_probe_still_connected :
    (setCredentials deniedServer testModeState "user" "pass").2
        = .error (.httpError 401 "Unauthorized" "denied") ∧
    (getConnectionInfo
        (setCredentials deniedServer testModeState "user" "pass").1).isConnected
      = true := by
  constructor
  · rfl
  · rfl

/-- C2 (amended): `isConnected` is false immediately after construction, and
it becomes true after any `setCredentials` call — also when the
reachability probe fails, because the encoded credentials are stored before
the probe and survive its failure. -/
theorem setCredentials_stores_before_probe :
    (∀ (isTestMode : Bool) (host port : Option String) (st : AdtState),
      makeService isTestMode host port = .ok st →
      (getConnectionInfo st).isConnected = false) ∧
    (∀ (srv : Server) (st : AdtState) (u p : String),
      (getConnectionInfo (setCredentials srv st u p).1).isConnected = true) := by
  constructor
  · intro mode host port st h
    unfold makeService at h
    split_ifs at h <;> cases h <;> rfl
  · intro srv st u p
    have hcred : (setCredentials srv st u p).1.credentials
        = base64Encode (u ++ ":" ++ p) := by
      show (request srv { st with
          username := some u,
          credentials := base64Encode (u ++ ":" ++ p) }
        "/discovery" "GET" none []).state.credentials
        = base64Encode (u ++ ":" ++ p)
      exact request_state_credentials srv _ "/discovery" "GET" none []
    show ((setCredentials srv st u p).1.credentials != "") = true
    rw [hcred, bne_iff_ne]
    apply base64Encode_ne_empty
    rw [string_data_append, string_data_append]
    simp

/-- Witness for C2's amended statement: construction yields a disconnected
session, and a `setCredentials` whose probe fails (HTTP 401) still leaves
the session connected. -/
theorem setCredentials_stores_before_probe_witness :
    (makeService true none none = .ok testModeState ∧
      (getConnectionInfo testModeState).isConnected = false) ∧
    (getConnectionInfo
        (setCredentials deniedServer testModeState "user" "pass").1).isConnected
      = true :=
  ⟨⟨rfl, setCredentials_stores_before_probe.1 true none none testModeState rfl⟩,
    setCredentials_stores_before_probe.2 deniedServer testModeState "user" "pass"⟩

/-- C10: with no stored credentials, `getPackages` fails immediately with
the `Not connected to SAP` error: no request is issued (empty wire trace)
and the session state is returned unchanged. -/
theorem getPackages_guard_not_connected (srv : Server)
    (decodeNodes : String → List SeuNode) (st : AdtState)
    (parentUri : Option String) (h : st.credentials = "") :
    getPackages srv decodeNodes st parentUri
      = { fetches := [], state := st, outcome := .error .notConnected } := by
  unfold getPackages
  rw [if_pos h]

/-- Witness for C10: the fresh test-mode session has empty credentials and
`getPackages` returns the guard failure with no traffic. -/
theorem getPackages_guard_not_connected_witness :
    testModeState.credentials = "" ∧
    getPackages okServer (fun _ => []) testModeState none
      = { fetches := [], state := testModeState,
          outcome := .error .notConnected } :=
  ⟨rfl, getPackages_guard_not_connected okServer (fun _ => []) testModeState
    none rfl⟩

/-- C6: for every `request` call, if the real request's HTTP status is 2xx
the call returns the response body text, and otherwise it fails with an
error carrying the status, status text, and the full response body; no
other outcome exists (`request` is a total function into these two
shapes). -/
theorem request_outcome_dichotomy (srv : Server) (st : AdtState)
    (path method : String) (body : Option String)
    (extra : List (String × String)) :
    (httpOk (srv (request srv st path method body extra).real).status →
      (request srv st path method body extra).outcome
        = .ok (srv (request srv st path method body extra).real).bodyText) ∧
    (¬ httpOk (srv (request srv st path method body extra).real).status →
      (request srv st path method body extra).outcome
        = .error (.httpError
            (srv (request srv st path method body extra).real).status
            (srv (request srv st path method body extra).real).statusText
            (srv (request srv st path method body extra).real).bodyText)) := by
  constructor
  · intro h
    rw [request_outcome_eq]
    exact if_pos h
  · intro h
    rw [request_outcome_eq]
    exact if_neg h

/-- Witness for C6: a 200 response yields its body text, a 401 response
yields the structured HTTP error with status, status text and body. -/
theorem request_outcome_dichotomy_witness :
    (httpOk 200 ∧
      (request okServer testModeState "/discovery" "GET" none []).outcome
        = .ok "<ok/>") ∧
    (¬ httpOk 401 ∧
      (request deniedServer testModeState "/x" "POST" none []).outcome
        = .error (.httpError 401 "Unauthorized" "denied")) := by
  constructor
  · exact ⟨by decide,
      (request_outcome_dichotomy okServer testModeState "/discovery" "GET"
        none []).1 (by decide)⟩
  · exact ⟨by decide,
      (request_outcome_dichotomy deniedServer testModeState "/x" "POST"
        none []).2 (by decide)⟩

/-- C1: every non-GET `request` first issues the dedicated CSRF bootstrap —
a GET of `/discovery` carrying `X-CSRF-Token: Fetch` — regardless of any
cached token, stores the response's `x-csrf-token` header value as the
session token, and attaches exactly that value as the `X-CSRF-Token`
header of the subsequent real request. -/
theorem request_nonget_bootstraps_csrf (srv : Server) (st : AdtState)
    (path method : String) (body : Option String)
    (extra : List (String × String)) (h : method ≠ "GET") :
    (request srv st path method body extra).bootstrap
      = some (discoveryRequest st) ∧
    (discoveryRequest st).method = "GET" ∧
    (discoveryRequest st).url = st.baseUrl ++ "/discovery" ∧
    getHeader (discoveryRequest st).headers "X-CSRF-Token" = some "Fetch" ∧
    (request srv st path method body extra).state.csrfToken
      = (srv (discoveryRequest st)).xCsrfToken.getD "" ∧
    getHeader (request srv st path method body extra).real.headers
        "X-CSRF-Token"
      = some ((srv (discoveryRequest st)).xCsrfToken.getD "") := by
  unfold request
  rw [if_pos (Or.inl h)]
  refine ⟨rfl, rfl, rfl, ?_, rfl, ?_⟩
  · unfold discoveryRequest getHeader
    simp [List.find?]
  · dsimp only
    rw [if_pos h]
    exact getHeader_setHeader_same _ _ _

/-- Witness for C1: after a discovery response carrying
`x-csrf-token: ABC123`, the first subsequent POST carries
`X-CSRF-Token: ABC123`, and the session stores `ABC123`. -/
theorem request_nonget_bootstraps_csrf_witness :
    ("POST" ≠ "GET") ∧
    (request abcServer testModeState "/oo/classes" "POST" none []).bootstrap
      = some (discoveryRequest testModeState) ∧
    (abcServer (discoveryRequest testModeState)).xCsrfToken = some "ABC123" ∧
    getHeader (request abcServer testModeState "/oo/classes" "POST" none
        []).real.headers "X-CSRF-Token" = some "ABC123" ∧
    (request abcServer testModeState "/oo/classes" "POST" none
        []).state.csrfToken = "ABC123" := by
  have h := request_nonget_bootstraps_csrf abcServer testModeState
    "/oo/classes" "POST" none [] (by decide)
  exact ⟨by decide, h.1, rfl, h.2.2.2.2.2, h.2.2.2.2.1⟩

/-- C9 counterexample: for a bootstrap response whose `Set-Cookie` list is
`["first=1", ""]` a second cookie is present (the empty string), but the
code's `cookies[1] || cookies[0]` forwards the FIRST cookie — refuting
"the second cookie ... when a second cookie is present". -/
theorem cookie_second_empty_counterexample :
    (twoCookieServer (discoveryRequest testModeState)).setCookies[1]?
      = some "" ∧
    getHeader (request twoCookieServer testModeState "/x" "POST" none
        []).real.headers "Cookie" = some "first=1" ∧
    ("first=1" : String) ≠ "" := by
  refine ⟨rfl, rfl, by decide⟩

/-- C9 (amended): when the CSRF bootstrap runs and the caller headers carry
no `Cookie` key, the forwarded `Cookie` header is the second cookie when a
second, non-empty cookie is present (JavaScript `||` treats an empty second
cookie as absent), otherwise the first cookie; with no cookies, no `Cookie`
header is added. -/
theorem cookie_forwarding (srv : Server) (st : AdtState)
    (path method : String) (body : Option String)
    (extra : List (String × String))
    (hb : method ≠ "GET" ∨ st.csrfToken = "")
    (hext : ∀ kv ∈ extra, kv.1 ≠ "Cookie") :
    ((srv (discoveryRequest st)).setCookies = [] →
      getHeader (request srv st path method body extra).real.headers "Cookie"
        = none) ∧
    (∀ c0, (srv (discoveryRequest st)).setCookies = [c0] →
      getHeader (request srv st path method body extra).real.headers "Cookie"
        = some c0) ∧
    (∀ c0 c1 rest, (srv (discoveryRequest st)).setCookies = c0 :: c1 :: rest →
      getHeader (request srv st path method body extra).real.headers "Cookie"
        = some (if c1 = "" then c0 else c1)) := by
  unfold request
  rw [if_pos hb]
  dsimp only
  have htok : ∀ hs : List (String × String),
      getHeader (if method ≠ "GET"
        then setHeader hs "X-CSRF-Token"
          ((srv (discoveryRequest st)).xCsrfToken.getD "")
        else hs) "Cookie" = getHeader hs "Cookie" := by
    intro hs
    by_cases hm : method ≠ "GET"
    · rw [if_pos hm]
      exact getHeader_setHeader_other hs "Cookie" "X-CSRF-Token" _ (by decide)
    · rw [if_neg hm]
  refine ⟨?_, ?_, ?_⟩
  · intro hc
    rw [hc]
    rw [htok]
    rw [if_neg (by simp)]
    rw [getHeader_mergeHeaders_of_notin _ _ _ hext]
    unfold getHeader
    simp [List.find?]
  · intro c0 hc
    rw [hc, htok, if_pos (by simp)]
    exact getHeader_setHeader_same _ _ _
  · intro c0 c1 rest hc
    rw [hc, htok, if_pos (by simp)]
    exact getHeader_setHeader_same _ _ _

/-- Witness for C9's amended statement: no cookies → no `Cookie` header; a
single cookie is forwarded; of `["first=1", ""]` the first is forwarded
because the second is empty. -/
theorem cookie_forwarding_witness :
    (("POST" ≠ "GET" ∨ testModeState.csrfToken = "") ∧
      (okServer (discoveryRequest testModeState)).setCookies = [] ∧
      getHeader (request okServer testModeState "/x" "POST" none
          []).real.headers "Cookie" = none) ∧
    ((oneCookieServer (discoveryRequest testModeState)).setCookies
        = ["sap-sid=1"] ∧
      getHeader (request oneCookieServer testModeState "/x" "POST" none
          []).real.headers "Cookie" = some "sap-sid=1") ∧
    ((twoCookieServer (discoveryRequest testModeState)).setCookies
        = ["first=1", ""] ∧
      getHeader (request twoCookieServer testModeState "/x" "POST" none
          []).real.headers "Cookie" = some "first=1") := by
  have hext : ∀ kv ∈ ([] : List (String × String)), kv.1 ≠ "Cookie" := by
    intro kv hkv
    cases hkv
  refine ⟨⟨Or.inl (by decide), rfl, ?_⟩, ⟨rfl, ?_⟩, ⟨rfl, ?_⟩⟩
  · exact (cookie_forwarding okServer testModeState "/x" "POST" none []
      (Or.inl (by decide)) hext).1 rfl
  · exact (cookie_forwarding oneCookieServer testModeState "/x" "POST" none []
      (Or.inl (by decide)) hext).2.1 "sap-sid=1" rfl
  · exact (cookie_forwarding twoCookieServer testModeState "/x" "POST" none []
      (Or.inl (by decide)) hext).2.2 "first=1" "" [] rfl

theorem decodeVirtualFolders_cons_some (fv : String) (a : VfAttrs)
    (os : List (Option VfAttrs)) :
    decodeVirtualFolders fv (some a :: os)
      = decodeVfEntry fv a :: decodeVirtualFolders fv os := rfl

theorem decodeVirtualFolders_all_some (fv : String) :
    ∀ (objs : List (Option VfAttrs)), (∀ o ∈ objs, o.isSome = true) →
    (decodeVirtualFolders fv objs).length = objs.length ∧
    (∀ (i : Nat) (a : VfAttrs), objs[i]? = some (some a) →
      (decodeVirtualFolders fv objs)[i]? = some (decodeVfEntry fv a)) := by
  intro objs
  induction objs with
  | nil =>
    intro _
    refine ⟨rfl, ?_⟩
    intro i a hi
    simp at hi
  | cons o os ih =>
    intro h
    have ho := h o (List.mem_cons_self _ _)
    cases o with
    | none => simp at ho
    | some a0 =>
      have ihh := ih (fun o' ho' => h o' (List.mem_cons_of_mem _ ho'))
      rw [decodeVirtualFolders_cons_some]
      constructor
      · simp only [List.length_cons, ihh.1]
      · intro i a hi
        cases i with
        | zero =>
          simp only [List.getElem?_cons_zero, Option.some.injEq] at hi
          cases hi
          simp
        | succ n =>
          simp only [List.getElem?_cons_succ] at hi ⊢
          exact ihh.2 n a hi

/-- C8: in the facet navigator's response decode, every `virtualFolder`
entry (each carrying its attribute record) yields exactly one record, in
document order; an `expandable` attribute equal to `"true"` yields
`isExpandable = true` while any other or absent value yields `false`; an
absent `counter` attribute yields counter `0`. -/
theorem decode_folders_spec (facetValue : String)
    (objs : List (Option VfAttrs)) (h : ∀ o ∈ objs, o.isSome = true) :
    (decodeVirtualFolders facetValue objs).length = objs.length ∧
    (∀ (i : Nat) (a : VfAttrs), objs[i]? = some (some a) →
      (decodeVirtualFolders facetValue objs)[i]?
        = some (decodeVfEntry facetValue a)) ∧
    (∀ a : VfAttrs,
      (a.expandable = some "true" →
        (decodeVfEntry facetValue a).isExpandable = true) ∧
      (∀ e, a.expandable = some e → e ≠ "true" →
        (decodeVfEntry facetValue a).isExpandable = false) ∧
      (a.expandable = none →
        (decodeVfEntry facetValue a).isExpandable = false) ∧
      (a.counter = none → (decodeVfEntry facetValue a).counter = some 0)) := by
  obtain ⟨hlen, hpt⟩ := decodeVirtualFolders_all_some facetValue objs h
  refine ⟨hlen, hpt, ?_⟩
  intro a
  refine ⟨?_, ?_, ?_, ?_⟩
  · intro he
    show (a.expandable == some "true") = true
    rw [he]
    rfl
  · intro e he hne
    show (a.expandable == some "true") = false
    rw [he]
    simp [hne]
  · intro he
    show (a.expandable == some "true") = false
    rw [he]
    rfl
  · intro hc
    show jsParseInt (jsOrOpt a.counter "0") = some 0
    rw [hc]
    decide

def vfFixtureA : VfAttrs :=
  { name := "SOURCE_LIBRARY", displayName := some "Source Library",
    counter := some "2", facet := some "GROUP", type := none, vituri := none,
    expandable := some "true", hasChildrenOfSameFacet := some "true" }

def vfFixtureB : VfAttrs :=
  { name := "ZCL_TEST", displayName := none, counter := none,
    facet := some "CLAS", type := some "CLAS/OC", vituri := none,
    expandable := none, hasChildrenOfSameFacet := none }

/-- Witness for C8: a two-entry fixture, the first with
`expandable="true"`, decodes to two records with `isExpandable` `true` and
`false` in document order, and the second's absent counter decodes to 0. -/
theorem decode_folders_spec_witness :
    (∀ o ∈ [some vfFixtureA, some vfFixtureB], o.isSome = true) ∧
    (decodeVirtualFolders "package" [some vfFixtureA, some vfFixtureB]).length
      = 2 ∧
    (decodeVirtualFolders "package" [some vfFixtureA, some vfFixtureB]).map
      (fun f => f.isExpandable) = [true, false] ∧
    (decodeVirtualFolders "package" [some vfFixtureA, some vfFixtureB]).map
      (fun f => f.name) = ["SOURCE_LIBRARY", "ZCL_TEST"] ∧
    (decodeVfEntry "package" vfFixtureB).counter = some 0 := by
  have h := decode_folders_spec "package" [some vfFixtureA, some vfFixtureB]
    (by decide)
  exact ⟨by decide, h.1, by decide, by decide, (h.2.2 vfFixtureB).2.2.2 rfl⟩

/-- C7: `createClass` performs exactly the three dependent calls
validation GET → creation POST → source PUT, in that order; an earlier
step's failure prevents every later call (the call list stops at the failed
step), and no further (compensating) call is ever issued. -/
theorem createClass_three_dependent_steps (srv : Server) (st : AdtState)
    (d : ClassDetails) :
    (∀ e, (createClassStep1 srv st d).outcome = .error e →
      (createClass srv st d).calls = [(createClassStep1 srv st d).real] ∧
      (createClass srv st d).outcome = .error e) ∧
    (∀ s e, (createClassStep1 srv st d).outcome = .ok s →
      (createClassStep2 srv st d).outcome = .error e →
      (createClass srv st d).calls
        = [(createClassStep1 srv st d).real,
           (createClassStep2 srv st d).real] ∧
      (createClass srv st d).outcome = .error e) ∧
    (∀ s t, (createClassStep1 srv st d).outcome = .ok s →
      (createClassStep2 srv st d).outcome = .ok t →
      (createClass srv st d).calls
        = [(createClassStep1 srv st d).real,
           (createClassStep2 srv st d).real,
           (createClassStep3 srv st d).real]) ∧
    ((createClassStep1 srv st d).real.method = "GET" ∧
      (createClassStep1 srv st d).real.url = st.baseUrl ++ validationPath d) ∧
    ((createClassStep2 srv st d).real.method = "POST" ∧
      (createClassStep2 srv st d).real.url = st.baseUrl ++ "/oo/classes" ∧
      (createClassStep2 srv st d).real.body = some (classCreateBody d)) ∧
    ((createClassStep3 srv st d).real.method = "PUT" ∧
      (createClassStep3 srv st d).real.url
        = st.baseUrl ++ ("/oo/classes/" ++ d.name ++ "/source/main") ∧
      (createClassStep3 srv st d).real.body
        = some (generateClassSource d)) := by
  refine ⟨?_, ?_, ?_, ?_, ?_, ?_⟩
  · intro e h1
    unfold createClass
    dsimp only
    rw [h1]
    exact ⟨rfl, rfl⟩
  · intro s e h1 h2
    unfold createClass
    dsimp only
    rw [h1, h2]
    exact ⟨rfl, rfl⟩
  · intro s t h1 h2
    unfold createClass
    dsimp only
    rw [h1, h2]
  · exact ⟨request_real_method _ _ _ _ _ _, request_real_url _ _ _ _ _ _⟩
  · refine ⟨request_real_method _ _ _ _ _ _, ?_, request_real_body _ _ _ _ _ _⟩
    unfold createClassStep2 createClassStep1
    rw [request_real_url, request_state_baseUrl]
  · refine ⟨request_real_method _ _ _ _ _ _, ?_, request_real_body _ _ _ _ _ _⟩
    unfold createClassStep3 createClassStep2 createClassStep1
    rw [request_real_url, request_state_baseUrl, request_state_baseUrl]

def sampleClass : ClassDetails :=
  { name := "ZCL_NEW", description := "demo class", superclass := none,
    interfaces := none, package := some "ZPKG", language := none }

def validationFailServer : Server := fun req =>
  if req.url
      = "http://test.sap.server:44300/sap/bc/adt/oo/validation/objectname?objname=ZCL_NEW&type=CLAS/OC"
  then { status := 400, statusText := "Bad Request", bodyText := "invalid",
         xCsrfToken := some "TOK", setCookies := [] }
  else { status := 200, statusText := "OK", bodyText := "",
         xCsrfToken := some "TOK", setCookies := [] }

/-- Witness for C7: a failed name validation stops the sequence after one
call, and a fully successful run issues exactly GET, POST, PUT in order. -/
theorem createClass_three_dependent_steps_witness :
    ((createClassStep1 validationFailServer testModeState sampleClass).outcome
      = .error (.httpError 400 "Bad Request" "invalid")) ∧
    ((createClass validationFailServer testModeState sampleClass).calls
      = [(createClassStep1 validationFailServer testModeState
          sampleClass).real]) ∧
    ((createClassStep1 okServer testModeState sampleClass).outcome
      = .ok "<ok/>") ∧
    ((createClassStep2 okServer testModeState sampleClass).outcome
      = .ok "<ok/>") ∧
    ((createClass okServer testModeState sampleClass).calls
      = [(createClassStep1 okServer testModeState sampleClass).real,
         (createClassStep2 okServer testModeState sampleClass).real,
         (createClassStep3 okServer testModeState sampleClass).real]) ∧
    ((createClass okServer testModeState sampleClass).calls.map
      (fun q => q.method) = ["GET", "POST", "PUT"]) := by
  have h1 : (createClassStep1 validationFailServer testModeState
      sampleClass).outcome = .error (.httpError 400 "Bad Request" "invalid") := by
    decide
  have hok1 : (createClassStep1 okServer testModeState sampleClass).outcome
      = .ok "<ok/>" := by decide
  have hok2 : (createClassStep2 okServer testModeState sampleClass).outcome
      = .ok "<ok/>" := by decide
  refine ⟨h1, ?_, hok1, hok2, ?_, by decide⟩
  · exact ((createClass_three_dependent_steps validationFailServer
      testModeState sampleClass).1 _ h1).1
  · exact (createClass_three_dependent_steps okServer testModeState
      sampleClass).2.2.1 _ _ hok1 hok2

/-! ## Per-facet-kind extraction of the request bodies -/

theorem extract_vfs_package (name g p a : String) (hn : '<' ∉ name.data) :
    extractPreselections (vfsRequestBody "package" name g p a)
      = [("package", name)] ∧
    extractFacetOrder (vfsRequestBody "package" name g p a)
      = ["package", "group", "type"] := by
  have hdata : (vfsRequestBody "package" name g p a).data
      = vfsBody1a.data ++ (("package" : String).data
          ++ (vfsBody1b.data ++ (name.data ++ vfsBody1c.data))) := by
    rw [show vfsRequestBody "package" name g p a
        = vfsBody1a ++ "package" ++ vfsBody1b ++ name ++ vfsBody1c by
      unfold vfsRequestBody
      rw [if_pos rfl]]
    simp only [string_data_append, List.append_assoc]
  constructor
  · show presels (vfsRequestBody "package" name g p a).data = _
    rw [hdata]
    rw [presels_of_some (dropThrough_append_found _
      (by decide : dropThrough preselMark vfsBody1a.data = some []))]
    rw [List.nil_append]
    rw [presels_of_none (by
      rw [dropThrough_append_notin _ _ _ '<' (by decide) (by decide),
        dropThrough_append_none _ (by decide) (by decide),
        dropThrough_append_notin _ _ _ '<' (by decide) hn]
      decide)]
    unfold preselOf
    rw [takeUntil_append_notin _ _ _ '"' (by decide) (by decide)]
    rw [takeUntil_append_found _
      (by decide : dropThrough quotMark vfsBody1b.data
        = some (">\n        <vfs:value>").data)]
    rw [show takeUntil quotMark vfsBody1b.data = [] by decide, List.append_nil]
    rw [dropThrough_append_notin _ _ _ '<' (by decide) (by decide)]
    rw [dropThrough_append_found _
      (by decide : dropThrough valueOpen vfsBody1b.data = some [])]
    rw [Option.getD_some, List.nil_append]
    rw [takeUntil_append_notin _ _ _ '<' (by decide) hn]
    rw [show takeUntil valueClose vfsBody1c.data = [] by decide, List.append_nil]
  · show facetItems (takeUntil facetorderClose
      ((dropThrough facetorderOpen
        (vfsRequestBody "package" name g p a).data).getD [])) = _
    rw [hdata]
    rw [dropThrough_append_none _ (by decide) (by decide),
      dropThrough_append_notin _ _ _ '<' (by decide) (by decide),
      dropThrough_append_none _ (by decide) (by decide),
      dropThrough_append_notin _ _ _ '<' (by decide) hn]
    decide

theorem extract_vfs_PACKAGE (name g p a : String) (hn : '<' ∉ name.data) :
    extractPreselections (vfsRequestBody "PACKAGE" name g p a)
      = [("package", ".." ++ name)] ∧
    extractFacetOrder (vfsRequestBody "PACKAGE" name g p a)
      = ["group", "type"] := by
  have hdata : (vfsRequestBody "PACKAGE" name g p a).data
      = vfsBody2a.data ++ (name.data ++ vfsBody2b.data) := by
    rw [show vfsRequestBody "PACKAGE" name g p a
        = vfsBody2a ++ name ++ vfsBody2b by
      unfold vfsRequestBody
      rw [if_neg (by decide), if_pos rfl]]
    rw [string_data_append, string_data_append, List.append_assoc]
  constructor
  · show presels (vfsRequestBody "PACKAGE" name g p a).data = _
    rw [hdata]
    rw [presels_of_some (dropThrough_append_found _
      (by decide : dropThrough preselMark vfsBody2a.data
        = some ("package\">\n        <vfs:value>..").data))]
    rw [presels_of_none (by
      rw [dropThrough_append_none _ (by decide) (by decide),
        dropThrough_append_notin _ _ _ '<' (by decide) hn]
      decide)]
    unfold preselOf
    rw [takeUntil_append_found _
      (by decide : dropThrough quotMark
          ("package\">\n        <vfs:value>..").data
        = some (">\n        <vfs:value>..").data)]
    rw [dropThrough_append_found _
      (by decide : dropThrough valueOpen
          ("package\">\n        <vfs:value>..").data
        = some ("..").data)]
    rw [Option.getD_some]
    rw [takeUntil_append_notin _ _ _ '<' (by decide) (by decide),
      takeUntil_append_notin _ _ _ '<' (by decide) hn,
      show takeUntil valueClose vfsBody2b.data = [] by decide,
      List.append_nil]
    rw [string_mk_append_left _ name ".." (by decide)]
    rw [show String.mk (takeUntil quotMark
        ("package\">\n        <vfs:value>..").data) = "package" by decide]
  · show facetItems (takeUntil facetorderClose
      ((dropThrough facetorderOpen
        (vfsRequestBody "PACKAGE" name g p a).data).getD [])) = _
    rw [hdata]
    rw [dropThrough_append_none _ (by decide) (by decide),
      dropThrough_append_notin _ _ _ '<' (by decide) hn]
    decide

theorem extract_vfs_GROUP (name g p a : String) (hn : '<' ∉ name.data)
    (ha : '<' ∉ a.data) :
    extractPreselections (vfsRequestBody "GROUP" name g p a)
      = [("GROUP", name), ("package", ".." ++ a)] ∧
    extractFacetOrder (vfsRequestBody "GROUP" name g p a) = ["type"] := by
  have hdata : (vfsRequestBody "GROUP" name g p a).data
      = vfsBody1a.data ++ (("GROUP" : String).data
          ++ (vfsBody1b.data ++ (name.data ++ (vfsBody3c.data
            ++ (a.data ++ vfsBody3d.data))))) := by
    rw [show vfsRequestBody "GROUP" name g p a
        = vfsBody1a ++ "GROUP" ++ vfsBody1b ++ name ++ vfsBody3c ++ a
            ++ vfsBody3d by
      unfold vfsRequestBody
      rw [if_neg (by decide), if_neg (by decide), if_pos rfl]]
    simp only [string_data_append, List.append_assoc]
  constructor
  · show presels (vfsRequestBody "GROUP" name g p a).data = _
    rw [hdata]
    rw [presels_of_some (dropThrough_append_found _
      (by decide : dropThrough preselMark vfsBody1a.data = some []))]
    rw [List.nil_append]
    rw [presels_of_some (by
      rw [dropThrough_append_notin _ _ _ '<' (by decide) (by decide),
        dropThrough_append_none _ (by decide) (by decide),
        dropThrough_append_notin _ _ _ '<' (by decide) hn]
      exact dropThrough_append_found _
        (by decide : dropThrough preselMark vfsBody3c.data
          = some ("package\">\n        <vfs:value>..").data))]
    rw [presels_of_none (by
      rw [dropThrough_append_none _ (by decide) (by decide),
        dropThrough_append_notin _ _ _ '<' (by decide) ha]
      decide)]
    unfold preselOf
    rw [takeUntil_append_notin _ _ _ '"' (by decide) (by decide)]
    rw [takeUntil_append_found _
      (by decide : dropThrough quotMark vfsBody1b.data
        = some (">\n        <vfs:value>").data)]
    rw [show takeUntil quotMark vfsBody1b.data = [] by decide, List.append_nil]
    rw [dropThrough_append_notin _ _ _ '<' (by decide) (by decide)]
    rw [dropThrough_append_found _
      (by decide : dropThrough valueOpen vfsBody1b.data = some [])]
    rw [Option.getD_some, List.nil_append]
    rw [takeUntil_append_notin _ _ _ '<' (by decide) hn]
    rw [takeUntil_append_found _
      (by decide : dropThrough valueClose vfsBody3c.data
        = some ("\n        </vfs:preselection>\n        <vfs:preselection facet=\"package\">\n        <vfs:value>..").data)]
    rw [show takeUntil valueClose vfsBody3c.data = [] by decide,
      List.append_nil]
    rw [takeUntil_append_found _
      (by decide : dropThrough quotMark
          ("package\">\n        <vfs:value>..").data
        = some (">\n        <vfs:value>..").data)]
    rw [dropThrough_append_found _
      (by decide : dropThrough valueOpen
          ("package\">\n        <vfs:value>..").data
        = some ("..").data)]
    rw [Option.getD_some]
    rw [takeUntil_append_notin _ _ _ '<' (by decide) (by decide),
      takeUntil_append_notin _ _ _ '<' (by decide) ha,
      show takeUntil valueClose vfsBody3d.data = [] by decide,
      List.append_nil]
    rw [string_mk_append_left _ a ".." (by decide)]
    rw [string_mk_data, string_mk_data]
    rw [show String.mk (takeUntil quotMark
        ("package\">\n        <vfs:value>..").data) = "package" by decide]
  · show facetItems (takeUntil facetorderClose
      ((dropThrough facetorderOpen
        (vfsRequestBody "GROUP" name g p a).data).getD [])) = _
    rw [hdata]
    rw [dropThrough_append_none _ (by decide) (by decide),
      dropThrough_append_notin _ _ _ '<' (by decide) (by decide),
      dropThrough_append_none _ (by decide) (by decide),
      dropThrough_append_notin _ _ _ '<' (by decide) hn,
      dropThrough_append_none _ (by decide) (by decide),
      dropThrough_append_notin _ _ _ '<' (by decide) ha]
    decide

theorem extract_vfs_TYPE (name g p a : String) (hp : '<' ∉ p.data)
    (ha : '<' ∉ a.data) :
    extractPreselections (vfsRequestBody "TYPE" name g p a)
      = [("group", "SOURCE_LIBRARY"), ("package", ".." ++ a), ("type", p)] ∧
    extractFacetOrder (vfsRequestBody "TYPE" name g p a) = [] := by
  have hdata : (vfsRequestBody "TYPE" name g p a).data
      = vfsBody4a.data ++ (a.data ++ (vfsBody4b.data
          ++ (p.data ++ vfsBody4c.data))) := by
    rw [show vfsRequestBody "TYPE" name g p a
        = vfsBody4a ++ a ++ vfsBody4b ++ p ++ vfsBody4c by
      unfold vfsRequestBody
      rw [if_neg (by decide), if_neg (by decide), if_neg (by decide),
        if_pos rfl]]
    simp only [string_data_append, List.append_assoc]
  constructor
  · show presels (vfsRequestBody "TYPE" name g p a).data = _
    rw [hdata]
    rw [presels_of_some (dropThrough_append_found _
      (by decide : dropThrough preselMark vfsBody4a.data
        = some ("group\">\n                    <vfs:value>SOURCE_LIBRARY</vfs:value>\n                    </vfs:preselection>\n                    <vfs:preselection facet=\"package\">\n                    <vfs:value>..").data))]
    rw [presels_of_some (dropThrough_append_found _
      (by decide : dropThrough preselMark
          ("group\">\n                    <vfs:value>SOURCE_LIBRARY</vfs:value>\n                    </vfs:preselection>\n                    <vfs:preselection facet=\"package\">\n                    <vfs:value>..").data
        = some ("package\">\n                    <vfs:value>..").data))]
    rw [presels_of_some (by
      rw [dropThrough_append_none _ (by decide) (by decide),
        dropThrough_append_notin _ _ _ '<' (by decide) ha]
      exact dropThrough_append_found _
        (by decide : dropThrough preselMark vfsBody4b.data
          = some ("type\">\n                    <vfs:value>").data))]
    rw [presels_of_none (by
      rw [dropThrough_append_none _ (by decide) (by decide),
        dropThrough_append_notin _ _ _ '<' (by decide) hp]
      decide)]
    unfold preselOf
    rw [takeUntil_append_found _
      (by decide : dropThrough quotMark
          ("group\">\n                    <vfs:value>SOURCE_LIBRARY</vfs:value>\n                    </vfs:preselection>\n                    <vfs:preselection facet=\"package\">\n                    <vfs:value>..").data
        = some (">\n                    <vfs:value>SOURCE_LIBRARY</vfs:value>\n                    </vfs:preselection>\n                    <vfs:preselection facet=\"package\">\n                    <vfs:value>..").data)]
    rw [dropThrough_append_found _
      (by decide : dropThrough valueOpen
          ("group\">\n                    <vfs:value>SOURCE_LIBRARY</vfs:value>\n                    </vfs:preselection>\n                    <vfs:preselection facet=\"package\">\n                    <vfs:value>..").data
        = some ("SOURCE_LIBRARY</vfs:value>\n                    </vfs:preselection>\n                    <vfs:preselection facet=\"package\">\n                    <vfs:value>..").data)]
    rw [Option.getD_some]
    rw [takeUntil_append_found _
      (by decide : dropThrough valueClose
          ("SOURCE_LIBRARY</vfs:value>\n                    </vfs:preselection>\n                    <vfs:preselection facet=\"package\">\n                    <vfs:value>..").data
        = some ("\n                    </vfs:preselection>\n                    <vfs:preselection facet=\"package\">\n                    <vfs:value>..").data)]
    rw [takeUntil_append_found _
      (by decide : dropThrough quotMark
          ("package\">\n                    <vfs:value>..").data
        = some (">\n                    <vfs:value>..").data)]
    rw [dropThrough_append_found _
      (by decide : dropThrough valueOpen
          ("package\">\n                    <vfs:value>..").data
        = some ("..").data)]
    rw [Option.getD_some]
    rw [takeUntil_append_notin _ _ _ '<' (by decide) (by decide),
      takeUntil_append_notin _ _ _ '<' (by decide) ha,
      takeUntil_append_found _
        (by decide : dropThrough valueClose vfsBody4b.data
          = some ("\n                    </vfs:preselection>\n                    <vfs:preselection facet=\"type\">\n                    <vfs:value>").data),
      show takeUntil valueClose vfsBody4b.data = [] by decide,
      List.append_nil]
    rw [string_mk_append_left _ a ".." (by decide)]
    rw [takeUntil_append_found _
      (by decide : dropThrough quotMark
          ("type\">\n                    <vfs:value>").data
        = some (">\n                    <vfs:value>").data)]
    rw [dropThrough_append_found _
      (by decide : dropThrough valueOpen
          ("type\">\n                    <vfs:value>").data = some [])]
    rw [Option.getD_some, List.nil_append]
    rw [takeUntil_append_notin _ _ _ '<' (by decide) hp,
      show takeUntil valueClose vfsBody4c.data = [] by decide,
      List.append_nil]
    rw [string_mk_data]
    rw [show String.mk (takeUntil valueClose
        ("SOURCE_LIBRARY</vfs:value>\n                    </vfs:preselection>\n                    <vfs:preselection facet=\"package\">\n                    <vfs:value>..").data)
      = "SOURCE_LIBRARY" by decide]
    rw [show String.mk (takeUntil quotMark
        ("group\">\n                    <vfs:value>SOURCE_LIBRARY</vfs:value>\n                    </vfs:preselection>\n                    <vfs:preselection facet=\"package\">\n                    <vfs:value>..").data)
      = "group" by decide]
    rw [show String.mk (takeUntil quotMark
        ("package\">\n                    <vfs:value>..").data)
      = "package" by decide]
    rw [show String.mk (takeUntil quotMark
        ("type\">\n                    <vfs:value>").data) = "type" by decide]
  · show facetItems (takeUntil facetorderClose
      ((dropThrough facetorderOpen
        (vfsRequestBody "TYPE" name g p a).data).getD [])) = _
    rw [hdata]
    rw [dropThrough_append_none _ (by decide) (by decide),
      dropThrough_append_notin _ _ _ '<' (by decide) ha,
      dropThrough_append_none _ (by decide) (by decide),
      dropThrough_append_notin _ _ _ '<' (by decide) hp]
    decide

theorem extract_vfs_other (fv name g p a : String)
    (h1 : fv ≠ "package") (h2 : fv ≠ "PACKAGE") (h3 : fv ≠ "GROUP")
    (h4 : fv ≠ "TYPE") (hfv1 : '<' ∉ fv.data) (hfv2 : '"' ∉ fv.data)
    (hn : '<' ∉ name.data) (hg : '<' ∉ g.data) (ha : '<' ∉ a.data) :
    extractPreselections (vfsRequestBody fv name g p a)
      = [(fv, name), ("package", ".." ++ a), ("type", g)] ∧
    extractFacetOrder (vfsRequestBody fv name g p a) = [] := by
  have hdata : (vfsRequestBody fv name g p a).data
      = vfsBody5a.data ++ (fv.data ++ (vfsBody5b.data ++ (name.data
          ++ (vfsBody5c.data ++ (a.data ++ (vfsBody5d.data
            ++ (g.data ++ vfsBody5e.data))))))) := by
    rw [show vfsRequestBody fv name g p a
        = vfsBody5a ++ fv ++ vfsBody5b ++ name ++ vfsBody5c ++ a ++ vfsBody5d
            ++ g ++ vfsBody5e by
      unfold vfsRequestBody
      rw [if_neg h1, if_neg h2, if_neg h3, if_neg h4]]
    simp only [string_data_append, List.append_assoc]
  constructor
  · show presels (vfsRequestBody fv name g p a).data = _
    rw [hdata]
    rw [presels_of_some (dropThrough_append_found _
      (by decide : dropThrough preselMark vfsBody5a.data = some []))]
    rw [List.nil_append]
    rw [presels_of_some (by
      rw [dropThrough_append_notin _ _ _ '<' (by decide) hfv1,
        dropThrough_append_none _ (by decide) (by decide),
        dropThrough_append_notin _ _ _ '<' (by decide) hn]
      exact dropThrough_append_found _
        (by decide : dropThrough preselMark vfsBody5c.data
          = some ("package\">\n                        <vfs:value>..").data))]
    rw [presels_of_some (by
      rw [dropThrough_append_none _ (by decide) (by decide),
        dropThrough_append_notin _ _ _ '<' (by decide) ha]
      exact dropThrough_append_found _
        (by decide : dropThrough preselMark vfsBody5d.data
          = some ("type\">\n                        <vfs:value>").data))]
    rw [presels_of_none (by
      rw [dropThrough_append_none _ (by decide) (by decide),
        dropThrough_append_notin _ _ _ '<' (by decide) hg]
      decide)]
    unfold preselOf
    rw [takeUntil_append_notin _ _ _ '"' (by decide) hfv2]
    rw [takeUntil_append_found _
      (by decide : dropThrough quotMark vfsBody5b.data
        = some (">\n                        <vfs:value>").data)]
    rw [show takeUntil quotMark vfsBody5b.data = [] by decide, List.append_nil]
    rw [dropThrough_append_notin _ _ _ '<' (by decide) hfv1]
    rw [dropThrough_append_found _
      (by decide : dropThrough valueOpen vfsBody5b.data = some [])]
    rw [Option.getD_some, List.nil_append]
    rw [takeUntil_append_notin _ _ _ '<' (by decide) hn,
      takeUntil_append_found _
        (by decide : dropThrough valueClose vfsBody5c.data
          = some ("\n                        </vfs:preselection>\n                        <vfs:preselection facet=\"package\">\n                        <vfs:value>..").data),
      show takeUntil valueClose vfsBody5c.data = [] by decide,
      List.append_nil]
    rw [takeUntil_append_found _
      (by decide : dropThrough quotMark
          ("package\">\n                        <vfs:value>..").data
        = some (">\n                        <vfs:value>..").data)]
    rw [dropThrough_append_found _
      (by decide : dropThrough valueOpen
          ("package\">\n                        <vfs:value>..").data
        = some ("..").data)]
    rw [Option.getD_some]
    rw [takeUntil_append_notin _ _ _ '<' (by decide) (by decide),
      takeUntil_append_notin _ _ _ '<' (by decide) ha,
      takeUntil_append_found _
        (by decide : dropThrough valueClose vfsBody5d.data
          = some ("\n                        </vfs:preselection>\n                        <vfs:preselection facet=\"type\">\n                        <vfs:value>").data),
      show takeUntil valueClose vfsBody5d.data = [] by decide,
      List.append_nil]
    rw [string_mk_append_left _ a ".." (by decide)]
    rw [takeUntil_append_found _
      (by decide : dropThrough quotMark
          ("type\">\n                        <vfs:value>").data
        = some (">\n                        <vfs:value>").data)]
    rw [dropThrough_append_found _
      (by decide : dropThrough valueOpen
          ("type\">\n                        <vfs:value>").data = some [])]
    rw [Option.getD_some, List.nil_append]
    rw [takeUntil_append_notin _ _ _ '<' (by decide) hg,
      show takeUntil valueClose vfsBody5e.data = [] by decide,
      List.append_nil]
    rw [string_mk_data, string_mk_data, string_mk_data]
    rw [show String.mk (takeUntil quotMark
        ("package\">\n                        <vfs:value>..").data)
      = "package" by decide]
    rw [show String.mk (takeUntil quotMark
        ("type\">\n                        <vfs:value>").data)
      = "type" by decide]
  · show facetItems (takeUntil facetorderClose
      ((dropThrough facetorderOpen
        (vfsRequestBody fv name g p a).data).getD [])) = _
    rw [hdata]
    rw [dropThrough_append_none _ (by decide) (by decide),
      dropThrough_append_notin _ _ _ '<' (by decide) hfv1,
      dropThrough_append_none _ (by decide) (by decide),
      dropThrough_append_notin _ _ _ '<' (by decide) hn,
      dropThrough_append_none _ (by decide) (by decide),
      dropThrough_append_notin _ _ _ '<' (by decide) ha,
      dropThrough_append_none _ (by decide) (by decide),
      dropThrough_append_notin _ _ _ '<' (by decide) hg]
    decide

/-- C5 (amended): for every facet kind and XML-safe interpolated values
(no `<` in values, no `<` or `"` in the facet kind), the request body the
facet navigator builds carries exactly the preselections and facet order of
the specification's per-kind table — with the `GROUP` row preselecting the
facet attribute spelled verbatim `GROUP` (uppercase), not `group`, which is
the one point where the code departs from the claim. -/
theorem vfs_body_matches_spec_table (facetValue name groupName parentName
    actualPackageName : String)
    (hfv1 : '<' ∉ facetValue.data) (hfv2 : '"' ∉ facetValue.data)
    (hn : '<' ∉ name.data) (hg : '<' ∉ groupName.data)
    (hp : '<' ∉ parentName.data) (ha : '<' ∉ actualPackageName.data) :
    extractPreselections
        (vfsRequestBody facetValue name groupName parentName actualPackageName)
      = specPreselections facetValue name groupName parentName
          actualPackageName ∧
    extractFacetOrder
        (vfsRequestBody facetValue name groupName parentName actualPackageName)
      = specFacetOrder facetValue := by
  by_cases h1 : facetValue = "package"
  · subst h1
    rw [show specPreselections "package" name groupName parentName
          actualPackageName = [("package", name)] by
        unfold specPreselections; rw [if_pos rfl],
      show specFacetOrder "package" = ["package", "group", "type"] by
        unfold specFacetOrder; rw [if_pos rfl]]
    exact extract_vfs_package name groupName parentName actualPackageName hn
  · by_cases h2 : facetValue = "PACKAGE"
    · subst h2
      rw [show specPreselections "PACKAGE" name groupName parentName
            actualPackageName = [("package", ".." ++ name)] by
          unfold specPreselections; rw [if_neg (by decide), if_pos rfl],
        show specFacetOrder "PACKAGE" = ["group", "type"] by
          unfold specFacetOrder; rw [if_neg (by decide), if_pos rfl]]
      exact extract_vfs_PACKAGE name groupName parentName actualPackageName hn
    · by_cases h3 : facetValue = "GROUP"
      · subst h3
        rw [show specPreselections "GROUP" name groupName parentName
              actualPackageName
            = [("GROUP", name), ("package", ".." ++ actualPackageName)] by
            unfold specPreselections
            rw [if_neg (by decide), if_neg (by decide), if_pos rfl],
          show specFacetOrder "GROUP" = ["type"] by
            unfold specFacetOrder
            rw [if_neg (by decide), if_neg (by decide), if_pos rfl]]
        exact extract_vfs_GROUP name groupName parentName actualPackageName
          hn ha
      · by_cases h4 : facetValue = "TYPE"
        · subst h4
          rw [show specPreselections "TYPE" name groupName parentName
                actualPackageName
              = [("group", "SOURCE_LIBRARY"),
                 ("package", ".." ++ actualPackageName),
                 ("type", parentName)] by
              unfold specPreselections
              rw [if_neg (by decide), if_neg (by decide), if_neg (by decide),
                if_pos rfl],
            show specFacetOrder "TYPE" = [] by
              unfold specFacetOrder
              rw [if_neg (by decide), if_neg (by decide), if_neg (by decide)]]
          exact extract_vfs_TYPE name groupName parentName actualPackageName
            hp ha
        · rw [show specPreselections facetValue name groupName parentName
                actualPackageName
              = [(facetValue, name),
                 ("package", ".." ++ actualPackageName),
                 ("type", groupName)] by
              unfold specPreselections
              rw [if_neg h1, if_neg h2, if_neg h3, if_neg h4],
            show specFacetOrder facetValue = [] by
              unfold specFacetOrder
              rw [if_neg h1, if_neg h2, if_neg h3]]
          exact extract_vfs_other facetValue name groupName parentName
            actualPackageName h1 h2 h3 h4 hfv1 hfv2 hn hg ha

/-- C5 counterexample: for facet kind `GROUP` (name `SRCGRP`, ancestor
package `ZPKG`) the emitted body's preselections are
`[("GROUP", "SRCGRP"), ("package", "..ZPKG")]` — the facet attribute is the
verbatim `GROUP`, not the `group` the claim's table states. -/
theorem vfs_group_casing_counterexample :
    extractPreselections
        (vfsRequestBody "GROUP" "SRCGRP" "SOURCE_LIBRARY" "" "ZPKG")
      = [("GROUP", "SRCGRP"), ("package", "..ZPKG")] ∧
    extractPreselections
        (vfsRequestBody "GROUP" "SRCGRP" "SOURCE_LIBRARY" "" "ZPKG")
      ≠ [("group", "SRCGRP"), ("package", "..ZPKG")] := by
  constructor
  · decide
  · decide

/-- Witness for C5's amended statement: one concrete instantiation per
facet kind, evaluated to the literal preselections and facet order. -/
theorem vfs_body_matches_spec_table_witness :
    (extractPreselections
        (vfsRequestBody "package" "ZROOT" "SOURCE_LIBRARY" "" "ZROOT")
      = [("package", "ZROOT")] ∧
     extractFacetOrder
        (vfsRequestBody "package" "ZROOT" "SOURCE_LIBRARY" "" "ZROOT")
      = ["package", "group", "type"]) ∧
    (extractPreselections
        (vfsRequestBody "PACKAGE" "ZLOCAL" "SOURCE_LIBRARY" "" "ZROOT")
      = [("package", "..ZLOCAL")] ∧
     extractFacetOrder
        (vfsRequestBody "PACKAGE" "ZLOCAL" "SOURCE_LIBRARY" "" "ZROOT")
      = ["group", "type"]) ∧
    (extractPreselections
        (vfsRequestBody "GROUP" "SOURCE_LIBRARY" "SOURCE_LIBRARY" "" "ZROOT")
      = [("GROUP", "SOURCE_LIBRARY"), ("package", "..ZROOT")] ∧
     extractFacetOrder
        (vfsRequestBody "GROUP" "SOURCE_LIBRARY" "SOURCE_LIBRARY" "" "ZROOT")
      = ["type"]) ∧
    (extractPreselections (vfsRequestBody "TYPE" "X" "G" "CLAS" "ZROOT")
      = [("group", "SOURCE_LIBRARY"), ("package", "..ZROOT"),
         ("type", "CLAS")] ∧
     extractFacetOrder (vfsRequestBody "TYPE" "X" "G" "CLAS" "ZROOT") = []) ∧
    (extractPreselections (vfsRequestBody "CLAS" "ZCL_X" "GRP" "PAR" "ZROOT")
      = [("CLAS", "ZCL_X"), ("package", "..ZROOT"), ("type", "GRP")] ∧
     extractFacetOrder (vfsRequestBody "CLAS" "ZCL_X" "GRP" "PAR" "ZROOT")
      = []) := by
  have w1 := vfs_body_matches_spec_table "package" "ZROOT" "SOURCE_LIBRARY"
    "" "ZROOT" (by decide) (by decide) (by decide) (by decide) (by decide)
    (by decide)
  have w2 := vfs_body_matches_spec_table "PACKAGE" "ZLOCAL" "SOURCE_LIBRARY"
    "" "ZROOT" (by decide) (by decide) (by decide) (by decide) (by decide)
    (by decide)
  have w3 := vfs_body_matches_spec_table "GROUP" "SOURCE_LIBRARY"
    "SOURCE_LIBRARY" "" "ZROOT" (by decide) (by decide) (by decide)
    (by decide) (by decide) (by decide)
  have w4 := vfs_body_matches_spec_table "TYPE" "X" "G" "CLAS" "ZROOT"
    (by decide) (by decide) (by decide) (by decide) (by decide) (by decide)
  have w5 := vfs_body_matches_spec_table "CLAS" "ZCL_X" "GRP" "PAR" "ZROOT"
    (by decide) (by decide) (by decide) (by decide) (by decide) (by decide)
  exact ⟨⟨w1.1.trans (by decide), w1.2.trans (by decide)⟩,
    ⟨w2.1.trans (by decide), w2.2.trans (by decide)⟩,
    ⟨w3.1.trans (by decide), w3.2.trans (by decide)⟩,
    ⟨w4.1.trans (by decide), w4.2.trans (by decide)⟩,
    ⟨w5.1.trans (by decide), w5.2.trans (by decide)⟩⟩

/-! ## The indirection-marker resolution of the navigation layer -/

theorem string_eq_of_data_eq {s t : String} (h : s.data = t.data) : s = t := by
  have h2 := congrArg String.mk h
  rwa [string_mk_data, string_mk_data] at h2

theorem isPrefixOf_append_drop {sep l : List Char}
    (h : sep.isPrefixOf l = true) : sep ++ l.drop sep.length = l := by
  induction sep generalizing l with
  | nil => simp
  | cons a as ih =>
    cases l with
    | nil => simp [List.isPrefixOf] at h
    | cons b bs =>
      rw [List.isPrefixOf, Bool.and_eq_true] at h
      have hab : a = b := beq_iff_eq.mp h.1
      subst hab
      rw [List.cons_append, List.length_cons, List.drop_succ_cons, ih h.2]

/-- Restoring a marker name: `".." ++ name.substring(2) = name` whenever
the name starts with the two-character marker. -/
theorem marker_restore {s : String} (h : jsStartsWith s ".." = true) :
    ".." ++ s.drop 2 = s := by
  apply string_eq_of_data_eq
  rw [string_data_append, String.drop_eq]
  show ("..").data ++ s.data.drop 2 = s.data
  exact isPrefixOf_append_drop h

/-- The follow-up body built for a marker node carries exactly one
`package` preselection whose value is the marker-prefixed name itself. -/
theorem followup_body_presel (f : VirtualFolder) (par apkg : String)
    (hstart : jsStartsWith f.name ".." = true)
    (hsan : '<' ∉ (f.name.drop 2).data) :
    extractPreselections (vfsRequestBody "PACKAGE" (f.name.drop 2)
        "SOURCE_LIBRARY" par apkg)
      = [("package", f.name)] := by
  rw [(extract_vfs_PACKAGE (f.name.drop 2) "SOURCE_LIBRARY" par apkg hsan).1,
    marker_restore hstart]

theorem getVfc_state_baseUrl (srv : Server)
    (dec : String → List (Option VfAttrs)) (st : AdtState)
    (pn fv n g p : String) :
    (getVirtualFolderContents srv dec st pn fv n g p).state.baseUrl
      = st.baseUrl := by
  unfold getVirtualFolderContents
  exact request_state_baseUrl _ _ _ _ _ _

theorem followUp_state_baseUrl (srv : Server)
    (dec : String → List (Option VfAttrs)) (element : PackageItem)
    (st : AdtState) (f : VirtualFolder) :
    (followUp srv dec element st f).state.baseUrl = st.baseUrl := by
  unfold followUp
  exact getVfc_state_baseUrl _ _ _ _ _ _ _ _

theorem getVfc_post_request (srv : Server)
    (dec : String → List (Option VfAttrs)) (st : AdtState)
    (pn fv n g p : String) :
    ∃ req ∈ (getVirtualFolderContents srv dec st pn fv n g p).fetches,
      req.method = "POST" ∧
      req.url = st.baseUrl
        ++ "/repository/informationsystem/virtualfolders/contents" ∧
      req.body = some (vfsRequestBody fv n g p ((pn.splitOn "/").getLastD "")) := by
  unfold getVirtualFolderContents
  dsimp only
  refine ⟨(request srv st "/repository/informationsystem/virtualfolders/contents"
      "POST" (some (vfsRequestBody fv n g p ((pn.splitOn "/").getLastD "")))
      vfsContentHeaders).real, ?_,
    request_real_method srv st _ "POST" _ vfsContentHeaders,
    request_real_url srv st _ "POST" _ vfsContentHeaders,
    request_real_body srv st _ "POST" _ vfsContentHeaders⟩
  unfold RequestResult.fetches
  exact List.mem_append_right _ (List.mem_singleton.mpr rfl)

theorem processFolders_nil (srv : Server)
    (dec : String → List (Option VfAttrs)) (element : PackageItem)
    (st : AdtState) :
    processFolders srv dec element st [] = ([], st, .ok []) := rfl

theorem processFolders_cons_marker {srv : Server}
    {dec : String → List (Option VfAttrs)} {element : PackageItem}
    {st : AdtState} {f : VirtualFolder} {fs : List VirtualFolder}
    {subs : List VirtualFolder} (hif : isIndirection f = true)
    (houtcome : (followUp srv dec element st f).outcome = .ok subs) :
    processFolders srv dec element st (f :: fs)
      = ((followUp srv dec element st f).fetches
          ++ (processFolders srv dec element
              (followUp srv dec element st f).state fs).1,
         (processFolders srv dec element
            (followUp srv dec element st f).state fs).2.1,
         (processFolders srv dec element
            (followUp srv dec element st f).state fs).2.2.map
          (fun items => subs.map (mkSubItem element) ++ items)) := by
  conv_lhs => rw [processFolders]
  rw [if_pos hif]
  dsimp only
  rw [houtcome]

theorem processFolders_cons_marker_error {srv : Server}
    {dec : String → List (Option VfAttrs)} {element : PackageItem}
    {st : AdtState} {f : VirtualFolder} {fs : List VirtualFolder}
    {e : AdtError} (hif : isIndirection f = true)
    (houtcome : (followUp srv dec element st f).outcome = .error e) :
    processFolders srv dec element st (f :: fs)
      = ((followUp srv dec element st f).fetches,
         (followUp srv dec element st f).state, .error e) := by
  conv_lhs => rw [processFolders]
  rw [if_pos hif]
  dsimp only
  rw [houtcome]

theorem processFolders_cons_nonmarker {srv : Server}
    {dec : String → List (Option VfAttrs)} {element : PackageItem}
    {st : AdtState} {f : VirtualFolder} {fs : List VirtualFolder}
    (hif : isIndirection f = false) :
    processFolders srv dec element st (f :: fs)
      = ((processFolders srv dec element st fs).1,
         (processFolders srv dec element st fs).2.1,
         (processFolders srv dec element st fs).2.2.map
          (fun items => mkFolderItem element f :: items)) := by
  conv_lhs => rw [processFolders]
  rw [if_neg (ne_of_beq_false hif)]

theorem processFolders_ok_spec (srv : Server)
    (dec : String → List (Option VfAttrs)) (element : PackageItem) :
    ∀ (st : AdtState) (folders : List VirtualFolder)
      (items : List PackageItem),
    (processFolders srv dec element st folders).2.2 = .ok items →
    ∃ chunks : List (List PackageItem),
      chunks.length = folders.length ∧
      items = chunks.flatten ∧
      ∀ (i : Nat) (f : VirtualFolder), folders[i]? = some f →
        (isIndirection f = true →
          (∃ stf subs, (followUp srv dec element stf f).outcome = .ok subs ∧
            chunks[i]? = some (subs.map (mkSubItem element))) ∧
          (∃ req ∈ (processFolders srv dec element st folders).1,
            req.method = "POST" ∧
            req.url = st.baseUrl
              ++ "/repository/informationsystem/virtualfolders/contents" ∧
            req.body = some (vfsRequestBody "PACKAGE" (f.name.drop 2)
              "SOURCE_LIBRARY" (element.parentLabel.getD "")
              (((element.packageUri.getD "").splitOn "/").getLastD "")))) ∧
        (isIndirection f = false →
          chunks[i]? = some [mkFolderItem element f]) := by
  intro st folders
  induction folders generalizing st with
  | nil =>
    intro items h
    rw [processFolders_nil] at h
    cases h
    refine ⟨[], rfl, rfl, ?_⟩
    intro i f hf
    simp at hf
  | cons f fs ih =>
    intro items h
    by_cases hif : isIndirection f = true
    · cases houtcome : (followUp srv dec element st f).outcome with
      | error e =>
        rw [processFolders_cons_marker_error hif houtcome] at h
        simp at h
      | ok subs =>
        rw [processFolders_cons_marker hif houtcome] at h
        cases hrest : (processFolders srv dec element
            (followUp srv dec element st f).state fs).2.2 with
        | error e =>
          rw [hrest] at h
          simp [Except.map] at h
        | ok items' =>
          rw [hrest] at h
          simp only [Except.map, Except.ok.injEq] at h
          obtain ⟨chunks', hlen', hflat', hidx'⟩ :=
            ih (followUp srv dec element st f).state items' hrest
          refine ⟨subs.map (mkSubItem element) :: chunks',
            by simp [hlen'], ?_, ?_⟩
          · rw [← h, List.flatten_cons, hflat']
          · intro i g hg
            cases i with
            | zero =>
              simp only [List.getElem?_cons_zero, Option.some.injEq] at hg
              subst hg
              refine ⟨fun _ => ⟨⟨st, subs, houtcome, by simp⟩, ?_⟩,
                fun hfalse => absurd hif (by rw [hfalse]; simp)⟩
              obtain ⟨req, hmem, hm, hu, hb⟩ := getVfc_post_request srv dec st
                (element.packageUri.getD "") "PACKAGE" (f.name.drop 2)
                "SOURCE_LIBRARY" (element.parentLabel.getD "")
              refine ⟨req, ?_, hm, hu, hb⟩
              rw [processFolders_cons_marker hif houtcome]
              exact List.mem_append_left _ (by
                unfold followUp
                exact hmem)
            | succ n =>
              simp only [List.getElem?_cons_succ] at hg ⊢
              have hind := hidx' n g hg
              refine ⟨fun ht => ⟨(hind.1 ht).1, ?_⟩, fun hfalse =>
                hind.2 hfalse⟩
              obtain ⟨req, hmem, hm, hu, hb⟩ := (hind.1 ht).2
              refine ⟨req, ?_, hm, ?_, hb⟩
              · rw [processFolders_cons_marker hif houtcome]
                exact List.mem_append_right _ hmem
              · rw [hu, followUp_state_baseUrl]
    · have hif' : isIndirection f = false := by
        cases hh : isIndirection f with
        | true => exact absurd hh hif
        | false => rfl
      rw [processFolders_cons_nonmarker hif'] at h
      cases hrest : (processFolders srv dec element st fs).2.2 with
      | error e =>
        rw [hrest] at h
        simp [Except.map] at h
      | ok items' =>
        rw [hrest] at h
        simp only [Except.map, Except.ok.injEq] at h
        obtain ⟨chunks', hlen', hflat', hidx'⟩ := ih st items' hrest
        refine ⟨[mkFolderItem element f] :: chunks', by simp [hlen'], ?_, ?_⟩
        · rw [← h, List.flatten_cons, hflat']
          rfl
        · intro i g hg
          cases i with
          | zero =>
            simp only [List.getElem?_cons_zero, Option.some.injEq] at hg
            subst hg
            exact ⟨fun ht => absurd ht (by rw [hif']; simp),
              fun _ => by simp⟩
          | succ n =>
            simp only [List.getElem?_cons_succ] at hg ⊢
            have hind := hidx' n g hg
            refine ⟨fun ht => ⟨(hind.1 ht).1, ?_⟩, fun hfalse =>
              hind.2 hfalse⟩
            obtain ⟨req, hmem, hm, hu, hb⟩ := (hind.1 ht).2
            refine ⟨req, ?_, hm, hu, hb⟩
            rw [processFolders_cons_nonmarker hif']
            exact hmem

/-- C4: in the provider's `package` branch, every `PACKAGE`-facet child
whose name carries the `..` indirection marker is resolved one level: the
navigator issues a follow-up virtual-folders POST whose body's single
`package` preselection value is the marker-prefixed name itself, and the
follow-up's children are returned in the node's place (in document order);
the marker node itself is never surfaced — any marker-named item the caller
sees can only be a child returned by a follow-up query. -/
theorem package_indirection_resolution (srv : Server)
    (dec : String → List (Option VfAttrs)) (st : AdtState)
    (element : PackageItem) (folders : List VirtualFolder)
    (items : List PackageItem)
    (hconn : (getConnectionInfo st).isConnected = true)
    (h0 : (getVirtualFolderContents srv dec st (element.packageUri.getD "")
        "package" element.label "SOURCE_LIBRARY" "").outcome = .ok folders)
    (hloop : (processFolders srv dec element
        (getVirtualFolderContents srv dec st (element.packageUri.getD "")
          "package" element.label "SOURCE_LIBRARY" "").state folders).2.2
      = .ok items)
    (hmarker : ∀ f ∈ folders, jsStartsWith f.name ".." = true →
      f.facet = "PACKAGE") :
    (getChildrenOfPackage srv dec st element).2.2 = items ∧
    (∃ chunks : List (List PackageItem),
      chunks.length = folders.length ∧ items = chunks.flatten ∧
      ∀ (i : Nat) (f : VirtualFolder), folders[i]? = some f →
        (isIndirection f = true →
          ∃ stf subs, (followUp srv dec element stf f).outcome = .ok subs ∧
            chunks[i]? = some (subs.map (mkSubItem element))) ∧
        (isIndirection f = false →
          chunks[i]? = some [mkFolderItem element f])) ∧
    (∀ it ∈ items, jsStartsWith it.label ".." = true →
      ∃ f ∈ folders, isIndirection f = true ∧
        ∃ stf subs, (followUp srv dec element stf f).outcome = .ok subs ∧
          ∃ g ∈ subs, it = mkSubItem element g) ∧
    (∀ f ∈ folders, isIndirection f = true →
      (∃ req ∈ (getChildrenOfPackage srv dec st element).1,
        req.method = "POST" ∧
        req.url = st.baseUrl
          ++ "/repository/informationsystem/virtualfolders/contents" ∧
        req.body = some (vfsRequestBody "PACKAGE" (f.name.drop 2)
          "SOURCE_LIBRARY" (element.parentLabel.getD "")
          (((element.packageUri.getD "").splitOn "/").getLastD ""))) ∧
      ('<' ∉ (f.name.drop 2).data →
        extractPreselections (vfsRequestBody "PACKAGE" (f.name.drop 2)
          "SOURCE_LIBRARY" (element.parentLabel.getD "")
          (((element.packageUri.getD "").splitOn "/").getLastD ""))
          = [("package", f.name)])) := by
  have hres : getChildrenOfPackage srv dec st element
      = ((getVirtualFolderContents srv dec st (element.packageUri.getD "")
            "package" element.label "SOURCE_LIBRARY" "").fetches
          ++ (processFolders srv dec element
              (getVirtualFolderContents srv dec st
                (element.packageUri.getD "") "package" element.label
                "SOURCE_LIBRARY" "").state folders).1,
         (processFolders srv dec element
            (getVirtualFolderContents srv dec st (element.packageUri.getD "")
              "package" element.label "SOURCE_LIBRARY" "").state folders).2.1,
         items) := by
    unfold getChildrenOfPackage
    rw [if_neg (by rw [hconn]; simp)]
    dsimp only
    rw [h0]
    dsimp only
    rw [hloop]
  obtain ⟨chunks, hlen, hflat, hidx⟩ :=
    processFolders_ok_spec srv dec element _ folders items hloop
  refine ⟨by rw [hres], ⟨chunks, hlen, hflat, ?_⟩, ?_, ?_⟩
  · intro i f hf
    have h := hidx i f hf
    exact ⟨fun ht => (h.1 ht).1, h.2⟩
  · intro it hit hmark
    rw [hflat] at hit
    rw [List.mem_flatten] at hit
    obtain ⟨chunk, hchunk, hitchunk⟩ := hit
    obtain ⟨i, hilt, hieq⟩ := List.getElem_of_mem hchunk
    have hchunk? : chunks[i]? = some chunk := by
      rw [List.getElem?_eq_getElem hilt, hieq]
    have hflt : i < folders.length := by omega
    have hf : folders[i]? = some folders[i] := List.getElem?_eq_getElem hflt
    have h := hidx i folders[i] hf
    cases hind : isIndirection folders[i] with
    | false =>
      have hchunkeq := h.2 hind
      rw [hchunk?] at hchunkeq
      cases hchunkeq
      have : it = mkFolderItem element folders[i] := by
        cases hitchunk with
        | head => rfl
        | tail _ hmem => cases hmem
      subst this
      have hlabel : (mkFolderItem element folders[i]).label
          = folders[i].name := rfl
      rw [hlabel] at hmark
      have hfacet := hmarker folders[i] (List.getElem_mem hflt) hmark
      have : isIndirection folders[i] = true := by
        unfold isIndirection
        rw [hmark, beq_iff_eq.mpr hfacet]
        rfl
      rw [this] at hind
      cases hind
    | true =>
      obtain ⟨stf, subs, hout, hchunkeq⟩ := (h.1 hind).1
      rw [hchunk?] at hchunkeq
      cases hchunkeq
      obtain ⟨g, hg, hgeq⟩ := List.mem_map.mp hitchunk
      exact ⟨folders[i], List.getElem_mem hflt, hind, stf, subs, hout,
        g, hg, hgeq.symm⟩
  · intro f hf ht
    obtain ⟨i, hilt, hieq⟩ := List.getElem_of_mem hf
    have hf? : folders[i]? = some f := by
      rw [List.getElem?_eq_getElem hilt, hieq]
    have h := hidx i f hf?
    obtain ⟨req, hmem, hm, hu, hb⟩ := (h.1 ht).2
    refine ⟨⟨req, ?_, hm, ?_, hb⟩, ?_⟩
    · rw [hres]
      exact List.mem_append_right _ hmem
    · rw [hu, getVfc_state_baseUrl]
    · intro hsan
      have hstart : jsStartsWith f.name ".." = true := by
        unfold isIndirection at ht
        exact (Bool.and_eq_true _ _).mp ht |>.2
      exact followup_body_presel f (element.parentLabel.getD "")
        (((element.packageUri.getD "").splitOn "/").getLastD "") hstart hsan

def c4Element : PackageItem :=
  { label := "ZROOT", packageUri := some "/sap/bc/adt/packages/ZROOT",
    itemType := "package", counter := some 0, facet := some "package",
    whatisclicked := some "package", hasChildrenOfSameFacet := some "true",
    parentLabel := none, vituri := none }

def c4TopEntry : VfAttrs :=
  { name := "..ZLOCAL", displayName := some "..ZLOCAL", counter := some "1",
    facet := some "PACKAGE", type := none, vituri := none,
    expandable := some "true", hasChildrenOfSameFacet := some "true" }

def c4SubEntry : VfAttrs :=
  { name := "SOURCE_LIBRARY", displayName := some "Source Library",
    counter := some "4", facet := some "GROUP", type := none, vituri := none,
    expandable := some "true", hasChildrenOfSameFacet := none }

def c4Decode : String → List (Option VfAttrs) := fun s =>
  if s = "TOP" then [some c4TopEntry]
  else if s = "SUB" then [some c4SubEntry]
  else []

def c4Server : Server := fun req =>
  if req.body
      = some (vfsRequestBody "PACKAGE" "ZLOCAL" "SOURCE_LIBRARY" "" "ZROOT")
  then { status := 200, statusText := "OK", bodyText := "SUB",
         xCsrfToken := some "TOK", setCookies := [] }
  else { status := 200, statusText := "OK", bodyText := "TOP",
         xCsrfToken := some "TOK", setCookies := [] }

def c4TopFolder : VirtualFolder := decodeVfEntry "package" c4TopEntry

def c4SubFolder : VirtualFolder := decodeVfEntry "PACKAGE" c4SubEntry

/-- Witness for C4: a `package`-facet query returning the indirection node
`..ZLOCAL` leads to a follow-up whose `package` preselection value is
`..ZLOCAL`; the caller receives exactly the follow-up's child
(`SOURCE_LIBRARY`) and never a node named `..ZLOCAL`. -/
theorem package_indirection_resolution_witness :
    (getConnectionInfo connectedState).isConnected = true ∧
    (getVirtualFolderContents c4Server c4Decode connectedState
        (c4Element.packageUri.getD "") "package" c4Element.label
        "SOURCE_LIBRARY" "").outcome = .ok [c4TopFolder] ∧
    (processFolders c4Server c4Decode c4Element
        (getVirtualFolderContents c4Server c4Decode connectedState
          (c4Element.packageUri.getD "") "package" c4Element.label
          "SOURCE_LIBRARY" "").state [c4TopFolder]).2.2
      = .ok [mkSubItem c4Element c4SubFolder] ∧
    (∀ f ∈ [c4TopFolder], jsStartsWith f.name ".." = true →
      f.facet = "PACKAGE") ∧
    (getChildrenOfPackage c4Server c4Decode connectedState c4Element).2.2
      = [mkSubItem c4Element c4SubFolder] ∧
    (mkSubItem c4Element c4SubFolder).label = "SOURCE_LIBRARY" ∧
    (∀ it ∈ [mkSubItem c4Element c4SubFolder], it.label ≠ "..ZLOCAL") ∧
    extractPreselections (vfsRequestBody "PACKAGE" (c4TopFolder.name.drop 2)
        "SOURCE_LIBRARY" (c4Element.parentLabel.getD "")
        (((c4Element.packageUri.getD "").splitOn "/").getLastD ""))
      = [("package", "..ZLOCAL")] := by
  have h := package_indirection_resolution c4Server c4Decode connectedState
    c4Element [c4TopFolder] [mkSubItem c4Element c4SubFolder]
    (by decide) (by decide) (by decide) (by decide)
  refine ⟨by decide, by decide, by decide, by decide, h.1, by decide,
    by decide, ?_⟩
  have hx := (h.2.2.2 c4TopFolder (by decide) (by decide)).2 (by decide)
  exact hx.trans (by decide)

end Adt
